import Mathlib

/-!
# RedProxy.Server: SOCKS4 / SOCKS5 session logic

A shallow embedding of the wire validators, the authentication negotiators, the
command handlers and the UDP envelope code of `Source/Session/**`, followed by the
theorems that settle the specification's claims against that code.

Conventions of the embedding

* A byte is a natural number; a buffer or a `boost::span<char>` is a `List Nat`.
  `byteAt data i` is `data[i]`.
* Multi-byte fields of the packed wire structs are read and written in network byte
  order (`boost::endian::big_to_native` of the loaded field, `native_to_big` before the
  store), so the embedding works with the big-endian value of the bytes.
* Asynchronous code is embedded in continuation-passing form turned into a trace: every
  handler returns the list of `Event`s it performs, in program order, and the results that
  the I/O layer delivers to the completion handlers are taken from a `World` record.
-/

namespace RedProxy

/-! ## Bytes and buffers -/

/-- The byte `data[i]` of a buffer (0 beyond the end, where the code does not read). -/
def byteAt (data : List Nat) (i : Nat) : Nat := data.getD i 0

/-- The buffer after `async_read_some` stored the received chunk `data` at its start:
the first `data.length` bytes are replaced, the rest keeps its previous content. -/
def recvInto (buffer data : List Nat) : List Nat :=
  data.take buffer.length ++ buffer.drop data.length

/-- Two bytes in network byte order for a 16-bit value. -/
def be16 (n : Nat) : List Nat := [n / 256 % 256, n % 256]

/-- Four bytes in network byte order for a 32-bit value. -/
def be32 (n : Nat) : List Nat :=
  [n / 16777216 % 256, n / 65536 % 256, n / 256 % 256, n % 256]

/-- The big-endian value of the 16-bit field stored at `off`. -/
def loadBE16 (data : List Nat) (off : Nat) : Nat :=
  byteAt data off * 256 + byteAt data (off + 1)

/-- The big-endian value of the 32-bit field stored at `off`. -/
def loadBE32 (data : List Nat) (off : Nat) : Nat :=
  byteAt data off * 16777216 + byteAt data (off + 1) * 65536
    + byteAt data (off + 2) * 256 + byteAt data (off + 3)

/-! ## Endpoints, error codes, events -/

/-- An IP address: `boost::asio::ip::address`, either v4 (32-bit value) or v6 (16 bytes). -/
inductive Address where
  | v4 (value : Nat)
  | v6 (bytes : List Nat)
  deriving DecidableEq, Repr

/-- An endpoint: address and port (`net_tcp::endpoint` / `net_udp::endpoint`). -/
structure Endpoint where
  address : Address
  port : Nat
  deriving DecidableEq, Repr

/-- The value ranges of the C++ types behind an endpoint: a 32-bit IPv4 value or the 16
bytes of `address_v6::bytes_type`, and a 16-bit port. -/
def Endpoint.wellFormed (e : Endpoint) : Bool :=
  (match e.address with
    | .v4 value => decide (value < 4294967296)
    | .v6 bytes => decide (bytes.length = 16)) && decide (e.port < 65536)

/-- Embedding of `endpoint.address().is_v4()`. -/
def Endpoint.is_v4 (e : Endpoint) : Bool :=
  match e.address with
  | .v4 _ => true
  | .v6 _ => false

/-- The default-constructed endpoint `kEmptyTcpEndpoint` / `kEmptyUdpEndpoint`: 0.0.0.0:0. -/
def kEmptyEndpoint : Endpoint := ⟨.v4 0, 0⟩

/-- A `boost::system::error_code` as far as the code distinguishes values. -/
inductive ErrorCode where
  | success
  | access_denied
  | eof
  | other (value : Nat)
  deriving DecidableEq, Repr

/-- The conversion `if (ecode)`: true for every code but success. -/
def ErrorCode.failed : ErrorCode → Bool
  | .success => false
  | _ => true

/-- Severity of a log record. -/
inductive LogLevel where
  | info
  | warning
  | error
  deriving DecidableEq, Repr

/-- The sockets of a session. -/
inductive Sock where
  | client
  | application
  deriving DecidableEq, Repr

/-- What a session does, in program order. -/
inductive Event where
  /-- The call `boost::asio::async_write` of these bytes on the client TCP socket. -/
  | write (bytes : List Nat)
  /-- The call `LogMessage(level, ...)`. -/
  | log (level : LogLevel)
  /-- The call `Server::DeleteSession(session_id_)`, reached through
  `AbstractSession::DeleteSession`. -/
  | deleteSession
  /-- Control entered `DoExecuteCommand` (SOCKS4) or its dispatch switch (SOCKS5). -/
  | executeCommand
  /-- Control entered the CONNECT handler. -/
  | connectCommand
  /-- Control entered the BIND handler. -/
  | bindCommand
  /-- Control entered the UDP ASSOCIATE handler. -/
  | udpAssociateCommand
  /-- The call `async_resolve(host, port)`. -/
  | resolve (host : List Nat) (port : Nat)
  /-- The call `tcp_socket_application_.async_connect(endpoint)`. -/
  | connect (endpoint : Endpoint)
  /-- The BIND acceptor is opened, bound to port 0 and listening (`v6` = IPv6 family). -/
  | listen (v6 : Bool)
  /-- The call `tcp_acceptor_bind_.async_accept`. -/
  | accept
  /-- The call `source.async_read_some` posted by `DoTunnelingReceive(source, dest, buffer)`, or by
  the TCP close watcher (with `source = dest = client`). -/
  | readSome (source dest : Sock)
  /-- The call `udp_socket_.async_receive_from` posted. -/
  | receiveFrom
  /-- The call `udp_socket_.async_send_to(bytes, dest)`. -/
  | sendTo (bytes : List Nat) (dest : Endpoint)
  /-- A C++ exception leaves the handler (`to_v4()` on an IPv6 address). -/
  | exception
  deriving DecidableEq, Repr

/-- The results the I/O layer delivers to a session's completion handlers. -/
structure World where
  /-- Outcome of the SOCKS5 method-selection write. -/
  methodWriteOk : Bool
  /-- Result of the user/password sub-negotiation read: error code and received chunk. -/
  authReadCode : ErrorCode
  authReadData : List Nat
  /-- Error code of the user/password reply write. -/
  authWriteCode : ErrorCode
  /-- Result of the SOCKS5 command-request read. -/
  commandReadCode : ErrorCode
  commandReadData : List Nat
  /-- Result of the DNS resolution (`none`: the resolver reported an error). -/
  resolved : Option Endpoint
  /-- Outcome of the outbound connect. -/
  connectOk : Bool
  /-- Value of `tcp_socket_application_.remote_endpoint()` once connected or accepted. -/
  remote : Endpoint
  /-- Value of `tcp_acceptor_bind_.local_endpoint()`. -/
  listener : Endpoint
  /-- Outcome of the BIND accept. -/
  acceptOk : Bool
  /-- Value of `udp_socket_.local_endpoint()`. -/
  udpLocal : Endpoint
  /-- Outcome of the first command-reply write of the session. -/
  firstWriteOk : Bool
  /-- Outcome of the second command-reply write of the session (BIND only). -/
  secondWriteOk : Bool
  deriving Repr

/-! ## `Source/Configuration.h` -/

/-- Record `Configuration::Socks4`. -/
structure ConfigSocks4 where
  enable : Bool
  enable_connect : Bool
  enable_bind : Bool
  user_id : List Nat
  address : List Nat
  port : Nat
  deriving Repr

/-- Record `Configuration::Socks5`. -/
structure ConfigSocks5 where
  enable : Bool
  enable_connect : Bool
  enable_bind : Bool
  enable_udp : Bool
  username : List Nat
  password : List Nat
  address : List Nat
  port : Nat
  deriving Repr

/-! ## `Source/Common` -/

namespace Common

/-- Embedding of `common::GetStringFromArray(data, offset)`: the bytes from `offset` up to the
first NUL, or the empty string when `offset` is outside the array or no NUL follows. -/
def GetStringFromArray (data : List Nat) (offset : Nat) : List Nat :=
  if data.length > offset then
    let found := (data.drop offset).takeWhile (fun c => c != 0)
    if offset + found.length < data.length then found else []
  else []

/-- Embedding of `common::GetIPv4Endpoint(address, port)` with `big_endian = true`, applied to the
fields stored at `addrOff` and `portOff` of the buffer. -/
def GetIPv4Endpoint (data : List Nat) (addrOff portOff : Nat) : Endpoint :=
  ⟨.v4 (loadBE32 data addrOff), loadBE16 data portOff⟩

/-- Embedding of `common::GetIPv6Endpoint(address, port)` with `big_endian = true`, applied to the
16 address bytes stored at `addrOff` and the port stored at `portOff`. -/
def GetIPv6Endpoint (data : List Nat) (addrOff portOff : Nat) : Endpoint :=
  ⟨.v6 ((List.range 16).map (fun cx => byteAt data (addrOff + cx))), loadBE16 data portOff⟩

end Common

/-! ## `Source/Session/AbstractSession.cpp` -/

/-- Constant `kTcpBufferSize`. -/
def kTcpBufferSize : Nat := 4096

/-- Constant `kUdpBufferSize`. -/
def kUdpBufferSize : Nat := 65535

/-- Embedding of `AbstractSession::DeleteSession(level, message)` with a non-empty message: the
message is logged and the server is asked to erase the session. -/
def DeleteSession (level : LogLevel) : List Event := [.log level, .deleteSession]

/-- Embedding of `AbstractSession::DoTunnelingReceive(source, dest, buffer)`: one read posted. -/
def DoTunnelingReceive (source dest : Sock) : List Event := [.readSome source dest]

/-- Embedding of `AbstractSession::DoTunnelingTraffic(source, dest, buffer)`: sets
`tunneling_started_` and starts a receive in each direction. -/
def DoTunnelingTraffic (source dest : Sock) : List Event :=
  DoTunnelingReceive source dest ++ DoTunnelingReceive dest source

/-! ## `Source/Session/Socks4` -/

namespace Socks4

/-- Constant `sizeof(Message)` of the packed struct: version, command/status, port, address. -/
def sizeofMessage : Nat := 8

/-- Constant `Command::kConnect`. -/
def kConnect : Nat := 1
/-- Constant `Command::kBind`. -/
def kBind : Nat := 2
/-- Constant `ReplyCode::kGranted`. -/
def kGranted : Nat := 90
/-- Constant `ReplyCode::kRejected`. -/
def kRejected : Nat := 91
/-- Constant `ReplyCode::kConnectionFailed`. -/
def kConnectionFailed : Nat := 92
/-- Constant `ReplyCode::kClientConflict`. -/
def kClientConflict : Nat := 93

/-- Embedding of `IsValidMessage(data)` of `Socks4.cpp`. `command` and `status` are the same byte (a
union at offset 1); `&&` binds tighter than `||`, so the condition is
`(version == 4 && command in 1..2) || (status in 90..93)`. -/
def IsValidMessage (data : List Nat) : Bool :=
  if data.length ≥ sizeofMessage then
    (byteAt data 0 == 4 && (byteAt data 1 ≥ kConnect && byteAt data 1 ≤ kBind)) ||
      (byteAt data 1 ≥ kGranted && byteAt data 1 ≤ kClientConflict)
  else
    false

/-- The 8 bytes of the packed reply `Message{0x0, code, native_to_big(port),
native_to_big(address)}`. -/
def replyBytes (code : Nat) (address port : Nat) : List Nat :=
  [0, code] ++ be16 port ++ be32 address

/-- Embedding of `Socks4Session::DoSendReply(code, endpoint, callback)`: the reply is written;
when the write fails the session is deleted, otherwise the callback runs.
`endpoint.address().to_v4()` throws for an IPv6 address. -/
def DoSendReply (code : Nat) (endpoint : Endpoint) (writeOk : Bool)
    (callback : List Event) : List Event :=
  match endpoint.address with
  | .v4 a =>
    .write (replyBytes code a endpoint.port) ::
      (if writeOk then callback else DeleteSession .error)
  | .v6 _ => [.exception]

/-- Embedding of `Socks4Session::DoSendReplyAndDeleteSession(code, endpoint, level, message)`. -/
def DoSendReplyAndDeleteSession (code : Nat) (endpoint : Endpoint) (level : LogLevel)
    (writeOk : Bool) : List Event :=
  DoSendReply code endpoint writeOk (DeleteSession level)

/-- The SOCKS4A test of `DoResolveAddress` on the big-endian value of the address field. -/
def isSocks4a (address : Nat) : Bool := (address ^^^ 0xff) < 0xff

/-- Embedding of `Socks4Session::DoResolveAddress(callback)`: for an address 0.0.0.x (x ≠ 0) the
host name after the USER-ID is resolved with the port of the header, otherwise the literal
endpoint of the header is passed on. The result is the events performed and what the callback
receives (`none`: a resolver error). -/
def DoResolveAddress (buffer user_id : List Nat) (w : World) :
    List Event × Option Endpoint :=
  if isSocks4a (loadBE32 buffer 4) then
    let address := Common.GetStringFromArray buffer (sizeofMessage + user_id.length + 1)
    let service := loadBE16 buffer 2
    ([.resolve address service], w.resolved)
  else
    ([], some (Common.GetIPv4Endpoint buffer 4 2))

/-- Embedding of `Socks4Session::DoConnectCommand`. -/
def DoConnectCommand (buffer user_id : List Nat) (w : World) : List Event :=
  let r := DoResolveAddress buffer user_id w
  .connectCommand :: r.1 ++
    match r.2 with
    | none => DoSendReplyAndDeleteSession kConnectionFailed kEmptyEndpoint .error w.firstWriteOk
    | some endpoint =>
      .connect endpoint ::
        (if !w.connectOk then
          DoSendReplyAndDeleteSession kConnectionFailed kEmptyEndpoint .error w.firstWriteOk
        else
          DoSendReply kGranted w.remote w.firstWriteOk
            (.log .info :: (DoTunnelingTraffic .client .application ++
              DoTunnelingTraffic .application .client)))

/-- Embedding of `Socks4Session::DoBindCommand`. -/
def DoBindCommand (w : World) : List Event :=
  .bindCommand :: .listen false ::
    DoSendReply kGranted w.listener w.firstWriteOk
      (.accept ::
        (if !w.acceptOk then
          DoSendReplyAndDeleteSession kConnectionFailed kEmptyEndpoint .error w.secondWriteOk
        else
          DoSendReply kGranted w.remote w.secondWriteOk
            (.log .info :: (DoTunnelingTraffic .client .application ++
              DoTunnelingTraffic .application .client))))

/-- Embedding of `Socks4Session::DoExecuteCommand`: a switch over the command byte with the two
cases `kConnect` and `kBind` and no default. -/
def DoExecuteCommand (cfg : ConfigSocks4) (buffer user_id : List Nat) (w : World) :
    List Event :=
  .executeCommand ::
    (if byteAt buffer 1 = kConnect then
      (if !cfg.enable_connect then
        DoSendReplyAndDeleteSession kRejected kEmptyEndpoint .error w.firstWriteOk
      else DoConnectCommand buffer user_id w)
    else if byteAt buffer 1 = kBind then
      (if !cfg.enable_bind then
        DoSendReplyAndDeleteSession kRejected kEmptyEndpoint .error w.firstWriteOk
      else DoBindCommand w)
    else [])

/-- Embedding of `Socks4Session::DoProcessAuthentication`: the USER-ID is extracted from the whole
session buffer at offset `sizeof(Message)` and compared with the configured one. -/
def DoProcessAuthentication (cfg : ConfigSocks4) (buffer : List Nat) (w : World) :
    List Event :=
  let user_id := Common.GetStringFromArray buffer sizeofMessage
  if !cfg.user_id.isEmpty && user_id != cfg.user_id then
    DoSendReplyAndDeleteSession kClientConflict kEmptyEndpoint .error w.firstWriteOk
  else
    DoExecuteCommand cfg buffer user_id w

/-- The completion handler of the read posted by `Socks4Session::Start`, for the read
result `(ecode, data)`; the buffer was resized from empty to `kTcpBufferSize` zero bytes. -/
def Start (cfg : ConfigSocks4) (ecode : ErrorCode) (data : List Nat) (w : World) :
    List Event :=
  let buffer := recvInto (List.replicate kTcpBufferSize 0) data
  if ecode.failed then DeleteSession .error
  else if !IsValidMessage (buffer.take data.length) then DeleteSession .error
  else DoProcessAuthentication cfg buffer w

end Socks4

/-! ## `Source/Session/Socks5` -/

namespace Socks5

/-- Size of the packed struct `AuthenticationMessage`: version, count/method. -/
def sizeofAuthenticationMessage : Nat := 2
/-- Size of the packed struct `TcpMessage`: version, status/command, reserved, address type. -/
def sizeofTcpMessage : Nat := 4
/-- Size of the packed struct `UdpMessage`: reserved (2), fragment, address type. -/
def sizeofUdpMessage : Nat := 4
/-- Size of the packed struct `AddressV4`: address (4), port (2). -/
def sizeofAddressV4 : Nat := 6
/-- Size of the packed struct `AddressV6`: address (16), port (2). -/
def sizeofAddressV6 : Nat := 18
/-- Size of the packed struct `AddressDomain`: the length octet only. -/
def sizeofAddressDomain : Nat := 1

/-- Method `AuthenticationMethod::kNoAuth`. -/
def kNoAuth : Nat := 0x00
/-- Method `AuthenticationMethod::kUserPassword`. -/
def kUserPassword : Nat := 0x02
/-- Command `Command::kConnect`. -/
def kConnect : Nat := 0x01
/-- Command `Command::kBind`. -/
def kBind : Nat := 0x02
/-- Command `Command::kUdpAssociate`. -/
def kUdpAssociate : Nat := 0x03
/-- Address type `AddressType::kIPv4`. -/
def kIPv4 : Nat := 0x1
/-- Address type `AddressType::kDomainName`. -/
def kDomainName : Nat := 0x3
/-- Address type `AddressType::kIPv6`. -/
def kIPv6 : Nat := 0x4
/-- Reply `ReplyCode::kOk`. -/
def kOk : Nat := 0x00
/-- Reply `ReplyCode::kNotAllowed`. -/
def kNotAllowed : Nat := 0x02
/-- Reply `ReplyCode::kErrorNet`. -/
def kErrorNet : Nat := 0x03
/-- Reply `ReplyCode::kErrorHost`. -/
def kErrorHost : Nat := 0x04
/-- Reply `ReplyCode::kRefused`. -/
def kRefused : Nat := 0x05
/-- Reply `ReplyCode::kUnknownCommand`. -/
def kUnknownCommand : Nat := 0x07

/-- The validator `IsValidAuthMessage(data)` of `Socks5.cpp`. -/
def IsValidAuthMessage (data : List Nat) : Bool :=
  if data.length > sizeofAuthenticationMessage then
    byteAt data 0 == 5 && byteAt data 1 > 0 &&
      (data.length - sizeofAuthenticationMessage) ≥ byteAt data 1
  else
    false

/-- The validator `IsValidTcpMessage(data)` of `Socks5.cpp`: version, command range, then a
length check per address type (a switch with the cases IPv4, IPv6, domain name). -/
def IsValidTcpMessage (data : List Nat) : Bool :=
  if data.length > sizeofTcpMessage then
    if byteAt data 0 == 5 && byteAt data 1 ≥ kConnect && byteAt data 1 ≤ kUdpAssociate then
      if byteAt data 3 = kIPv4 then
        data.length ≥ sizeofTcpMessage + sizeofAddressV4
      else if byteAt data 3 = kIPv6 then
        data.length ≥ sizeofTcpMessage + sizeofAddressV6
      else if byteAt data 3 = kDomainName then
        data.length ≥ sizeofTcpMessage + sizeofAddressDomain
      else
        false
    else
      false
  else
    false

/-- What `DoResolveAddress_` hands on: a literal endpoint passed to the callback at once, a
host name and port given to the resolver, or nothing (the `default` case). -/
inductive Resolution where
  | literal (endpoint : Endpoint)
  | domain (address : List Nat) (service : Nat)
  | unhandled
  deriving DecidableEq, Repr

/-- The address parser `Socks5Session::DoResolveAddress_<TMessage>`; `TcpMessage` and
`UdpMessage` both are 4 bytes long with the address type at offset 3, so one embedding serves
both instantiations. The address starts at `address_begin = sizeof(TMessage)`. -/
def DoResolveAddress_ (buffer : List Nat) : Resolution :=
  if byteAt buffer 3 = kIPv4 then
    .literal (Common.GetIPv4Endpoint buffer sizeofTcpMessage (sizeofTcpMessage + 4))
  else if byteAt buffer 3 = kIPv6 then
    .literal (Common.GetIPv6Endpoint buffer sizeofTcpMessage (sizeofTcpMessage + 16))
  else if byteAt buffer 3 = kDomainName then
    .domain
      ((buffer.drop (sizeofTcpMessage + sizeofAddressDomain)).take (byteAt buffer sizeofTcpMessage))
      (loadBE16 buffer (sizeofTcpMessage + sizeofAddressDomain + byteAt buffer sizeofTcpMessage))
  else
    .unhandled

/-- One past the highest buffer offset that `DoResolveAddress_` reads: the 4 header bytes,
then address and port (IPv4: 6 bytes, IPv6: 18 bytes, domain: the length octet, that many
name bytes and the 2 port bytes). -/
def DoResolveAddress_readEnd (buffer : List Nat) : Nat :=
  if byteAt buffer 3 = kIPv4 then sizeofTcpMessage + sizeofAddressV4
  else if byteAt buffer 3 = kIPv6 then sizeofTcpMessage + sizeofAddressV6
  else if byteAt buffer 3 = kDomainName then
    sizeofTcpMessage + sizeofAddressDomain + byteAt buffer sizeofTcpMessage + 2
  else sizeofTcpMessage

/-- The address bytes appended to a reply or envelope: `native_to_big(to_v4().to_uint())`
or `to_v6().to_bytes()`. -/
def addressBytes : Address → List Nat
  | .v4 a => be32 a
  | .v6 bytes => bytes

/-- The address type written for an endpoint: `is_v4() ? kIPv4 : kIPv6`. -/
def addressTypeOf (endpoint : Endpoint) : Nat :=
  if endpoint.is_v4 then kIPv4 else kIPv6

/-- The envelope header built by `CreateUdpMessage(endpoint)`: `UdpMessage` (reserved 0,
fragment 0, address type), then the address bytes and the port in network order. -/
def CreateUdpMessage (endpoint : Endpoint) : List Nat :=
  [0, 0, 0, addressTypeOf endpoint] ++ addressBytes endpoint.address ++ be16 endpoint.port

/-- The bytes assembled by `Socks5Session::DoSendReply_(code, endpoint, ...)`. -/
def replyBytes (code : Nat) (endpoint : Endpoint) : List Nat :=
  [5, code, 0, addressTypeOf endpoint] ++ addressBytes endpoint.address ++ be16 endpoint.port

/-- The reply writer `Socks5Session::DoSendReply_(code, endpoint, callback)`. -/
def DoSendReply_ (code : Nat) (endpoint : Endpoint) (writeOk : Bool)
    (callback : List Event) : List Event :=
  .write (replyBytes code endpoint) :: (if writeOk then callback else DeleteSession .error)

/-- The helper `Socks5Session::DoSendReplyAndDeleteSession_(code, endpoint, level, message)`. -/
def DoSendReplyAndDeleteSession_ (code : Nat) (endpoint : Endpoint) (level : LogLevel)
    (writeOk : Bool) : List Event :=
  DoSendReply_ code endpoint writeOk (DeleteSession level)

/-! ### `Authentication/UsernamePassword.cpp` and `NoAuth.cpp` -/

namespace UsernamePassword

/-- The constant `kSizeOfNegotiation`. -/
def kSizeOfNegotiation : Nat := 513

/-- The validator `IsValidMessage(data)` of `UsernamePassword.cpp`: `return true`. -/
def IsValidMessage (_data : List Nat) : Bool := true

/-- The parser `UsernamePassword::GetCredentials`: `username_len` is `buffer[1]`, the user
name the `username_len` bytes from offset 2, `password_len` the byte after it and the
password the `password_len` bytes after that. -/
def GetCredentials (buffer : List Nat) : List Nat × List Nat :=
  let username_len := byteAt buffer 1
  let password_len := byteAt buffer (2 + username_len)
  ((buffer.drop 2).take username_len,
    (buffer.drop (2 + username_len + 1)).take password_len)

/-- What the negotiation did: the reply written to the client (if any) and the error code
given to the callback. -/
structure Outcome where
  written : Option (List Nat)
  callback : ErrorCode
  deriving DecidableEq, Repr

/-- The completion handler of the read posted by `UsernamePassword::Execute(callback)`, for
the read result `(ecode, data)` and the error code `wcode` of the reply write. The buffer was
resized from empty to `kSizeOfNegotiation` zero bytes before the read. -/
def Execute (cfg : ConfigSocks5) (ecode : ErrorCode) (data : List Nat) (wcode : ErrorCode) :
    Outcome :=
  let buffer := recvInto (List.replicate kSizeOfNegotiation 0) data
  if ecode.failed then ⟨none, ecode⟩
  else if !IsValidMessage (buffer.take data.length) then ⟨none, .access_denied⟩
  else
    let credentials := GetCredentials buffer
    let success := decide (credentials.1 = cfg.username) && decide (credentials.2 = cfg.password)
    ⟨some [0, if success then 0 else 1], if success then wcode else .access_denied⟩

end UsernamePassword

namespace NoAuth

/-- The negotiator `NoAuth::Execute(callback)`: `callback({})`, nothing read or written. -/
def Execute : UsernamePassword.Outcome := ⟨none, .success⟩

end NoAuth

/-! ### `Socks5Session` -/

/-- The set of offered methods built by the loop of `DoProcessAuthentication`: the `count`
bytes `raw_methods_begin[0 .. count)` that follow the 2-byte header. -/
def offeredMethods (buffer : List Nat) : List Nat :=
  (buffer.drop sizeofAuthenticationMessage).take (byteAt buffer 1)

/-- The method chosen by `DoProcessAuthentication` (`none`: `auth_executor` stays null). -/
def selectMethod (cfg : ConfigSocks5) (buffer : List Nat) : Option Nat :=
  if !cfg.username.isEmpty && !cfg.password.isEmpty then
    if kUserPassword ∈ offeredMethods buffer then some kUserPassword else none
  else if kNoAuth ∈ offeredMethods buffer then some kNoAuth
  else none

/-- The handler `Socks5Session::DoConnectCommand`. -/
def DoConnectCommand (buffer : List Nat) (w : World) : List Event :=
  let afterResolve : Option Endpoint → List Event := fun r =>
    match r with
    | none => DoSendReplyAndDeleteSession_ kErrorHost kEmptyEndpoint .error w.firstWriteOk
    | some endpoint =>
      .connect endpoint ::
        (if !w.connectOk then
          DoSendReplyAndDeleteSession_ kErrorNet kEmptyEndpoint .error w.firstWriteOk
        else
          DoSendReply_ kOk w.remote w.firstWriteOk
            (.log .info :: (DoTunnelingTraffic .client .application ++
              DoTunnelingTraffic .application .client)))
  .connectCommand ::
    match DoResolveAddress_ buffer with
    | .literal endpoint => afterResolve (some endpoint)
    | .domain address service => .resolve address service :: afterResolve w.resolved
    | .unhandled => []

/-- The handler `Socks5Session::DoBindCommand_`: the listener's endpoint is sent, one
connection is accepted, and on success the relay is started. -/
def DoBindCommand_ (buffer : List Nat) (w : World) : List Event :=
  .bindCommand :: .listen (decide (byteAt buffer 3 = kIPv6)) ::
    DoSendReply_ kOk w.listener w.firstWriteOk
      (.accept ::
        (if !w.acceptOk then
          DoSendReplyAndDeleteSession_ kRefused kEmptyEndpoint .error w.secondWriteOk
        else
          .log .info :: (DoTunnelingTraffic .client .application ++
            DoTunnelingTraffic .application .client)))

/-- The handler `Socks5Session::DoUdpAssociateCommand_`: the TCP close watcher is armed,
the UDP socket bound, the reply sent and then the first UDP receive posted. -/
def DoUdpAssociateCommand_ (w : World) : List Event :=
  .udpAssociateCommand :: .readSome .client .client ::
    DoSendReply_ kOk w.udpLocal w.firstWriteOk [.log .info, .receiveFrom]

/-- The completion handler of the read posted by `Socks5Session::DoExecuteCommand_`: the
command request is read into the session buffer, validated and dispatched. -/
def DoExecuteCommand_ (cfg : ConfigSocks5) (buffer : List Nat) (w : World) : List Event :=
  let buffer := recvInto buffer w.commandReadData
  if w.commandReadCode.failed then DeleteSession .error
  else if !IsValidTcpMessage (buffer.take w.commandReadData.length) then DeleteSession .error
  else
    .executeCommand ::
      (if byteAt buffer 1 = kConnect then
        (if !cfg.enable_connect then
          DoSendReplyAndDeleteSession_ kNotAllowed kEmptyEndpoint .error w.firstWriteOk
        else DoConnectCommand buffer w)
      else if byteAt buffer 1 = kBind then
        (if !cfg.enable_bind then
          DoSendReplyAndDeleteSession_ kNotAllowed kEmptyEndpoint .error w.firstWriteOk
        else DoBindCommand_ buffer w)
      else if byteAt buffer 1 = kUdpAssociate then
        (if !cfg.enable_udp then
          DoSendReplyAndDeleteSession_ kNotAllowed kEmptyEndpoint .error w.firstWriteOk
        else DoUdpAssociateCommand_ w)
      else
        DoSendReplyAndDeleteSession_ kUnknownCommand kEmptyEndpoint .error w.firstWriteOk)

/-- The handler `Socks5Session::DoProcessAuthentication`: a method is chosen from the offer
held in the session buffer; without one the session is deleted, otherwise the chosen method
is stored over the count byte, the first `sizeof(AuthenticationMessage)` bytes of the buffer
are written, the negotiator runs and, on success, the command request is awaited. -/
def DoProcessAuthentication (cfg : ConfigSocks5) (buffer : List Nat) (w : World) :
    List Event :=
  match selectMethod cfg buffer with
  | none => DeleteSession .error
  | some method =>
    let buffer := buffer.set 1 method
    .write (buffer.take sizeofAuthenticationMessage) ::
      (if !w.methodWriteOk then DeleteSession .error
      else
        let outcome :=
          if method = kUserPassword then
            UsernamePassword.Execute cfg w.authReadCode w.authReadData w.authWriteCode
          else NoAuth.Execute
        (match outcome.written with
          | some reply => [Event.write reply]
          | none => []) ++
          (if outcome.callback.failed then DeleteSession .error
          else DoExecuteCommand_ cfg buffer w))

/-- The completion handler of the read posted by `Socks5Session::Start`, for the read
result `(ecode, data)`; the buffer was resized from empty to `kTcpBufferSize` zero bytes. -/
def Start (cfg : ConfigSocks5) (ecode : ErrorCode) (data : List Nat) (w : World) :
    List Event :=
  let buffer := recvInto (List.replicate kTcpBufferSize 0) data
  if ecode.failed then DeleteSession .error
  else if !IsValidAuthMessage (buffer.take data.length) then DeleteSession .error
  else DoProcessAuthentication cfg buffer w

/-! ### The UDP relay -/

/-- The session fields the UDP pump works on. -/
structure UdpState where
  buffer : List Nat
  udp_endpoint_client_ : Endpoint
  udp_endpoint_application_ : Endpoint
  deriving DecidableEq, Repr

/-- The endpoint `net_udp::endpoint(e.protocol(), 0)`: the wildcard address of the family
of `e` with port 0. -/
def unsetEndpointOf (e : Endpoint) : Endpoint :=
  if e.is_v4 then ⟨.v4 0, 0⟩ else ⟨.v6 (List.replicate 16 0), 0⟩

/-- The byte count `readed_size - offset_to_data` in `size_t` arithmetic. -/
def forwardCount (readed_size offset_to_data : Nat) : Nat :=
  (readed_size + 2 ^ 64 - offset_to_data % 2 ^ 64) % 2 ^ 64

/-- The completion handler of the receive posted by `Socks5Session::DoTunnelingUdpTraffic_`,
for a receive result `(ecode, data)` from `sender`; `resolved` is what the resolver answers
when the destination is a domain name and `sendOk` the outcome of the send. The result is
the new state and the events performed (`receiveFrom`: the pump posted its next receive). -/
def DoTunnelingUdpTraffic_ (s : UdpState) (ecode : ErrorCode) (sender : Endpoint)
    (data : List Nat) (resolved : Option Endpoint) (sendOk : Bool) : UdpState × List Event :=
  let buffer := recvInto s.buffer data
  let readed_size := data.length
  if ecode.failed then
    (⟨buffer, s.udp_endpoint_client_, sender⟩, [.log .warning])
  else
    let client :=
      if s.udp_endpoint_client_ = unsetEndpointOf s.udp_endpoint_client_ then sender
      else s.udp_endpoint_client_
    let s1 : UdpState := ⟨buffer, client, sender⟩
    if client = sender then
      let forward : Option Endpoint → List Event := fun r =>
        match r with
        | none => [.log .warning]
        | some endpoint =>
          let offset_to_data :=
            sizeofUdpMessage + (if endpoint.is_v4 then sizeofAddressV4 else sizeofAddressV6)
          [.sendTo ((buffer.drop offset_to_data).take (forwardCount readed_size offset_to_data))
              endpoint] ++
            (if sendOk then [.receiveFrom] else [.log .warning])
      match DoResolveAddress_ buffer with
      | .literal endpoint => (s1, forward (some endpoint))
      | .domain address service => (s1, .resolve address service :: forward resolved)
      | .unhandled => (s1, [])
    else
      (s1, [.sendTo (CreateUdpMessage client ++ buffer.take readed_size) client] ++
        (if sendOk then [.receiveFrom] else [.log .warning]))

end Socks5

/-! ### The TCP close watcher and the reads of `GetCredentials` -/

namespace Socks5

/-- The completion handler of the 1-byte read posted by
`Socks5Session::WaitForCloseTCPConnection(socket)`: an error deletes the session, a
successful read posts the read again. -/
def WaitForCloseTCPConnection (ecode : ErrorCode) : List Event :=
  if ecode.failed then DeleteSession .info else [.readSome .client .client]

/-- The buffer offsets read by `UsernamePassword::GetCredentials`, in the order of the
source: the `username_len` octet at 1, the password-length octet at `2 + username_len`, then
the `username_len` bytes from offset 2 and the `password_len` bytes after the length octet
(the two `std::string(begin, len)` copies). -/
def UsernamePassword.GetCredentialsReads (buffer : List Nat) : List Nat :=
  let username_len := byteAt buffer 1
  let password_len := byteAt buffer (2 + username_len)
  [1, 2 + username_len] ++ List.range' 2 username_len ++
    List.range' (2 + username_len + 1) password_len

end Socks5

/-! ## `Source/Server.cpp` -/

namespace Server

/-- The sentinel `AbstractSession::kInvalidId = -1` of type `size_t` (64 bits). -/
def kInvalidId : Nat := 2 ^ 64 - 1

/-- The bound `limit = std::numeric_limits<session_id>::max()` of `GenerateSessionId`. -/
def limit : Nat := 2 ^ 64 - 1

/-- The lookup `sessions_.find(id) != sessions_.end()` on the registry, a map from session
identifiers to sessions held as an association list. -/
def contains {σ : Type} (sessions_ : List (Nat × σ)) (id : Nat) : Bool :=
  (sessions_.lookup id).isSome

/-- The loop of `Server::GenerateSessionId` started with the function-static cursor at
`id`: the first identifier from the cursor on, below `limit`, that is not a key of the
registry, or `kInvalidId`. The result is the returned identifier and the value the static
cursor is left with. -/
def GenerateSessionId {σ : Type} (sessions_ : List (Nat × σ)) (id : Nat) : Nat × Nat :=
  if id < limit then
    if contains sessions_ id then GenerateSessionId sessions_ (id + 1) else (id, id)
  else (kInvalidId, id)
termination_by limit - id

/-- The removal `Server::DeleteSession(id)`: `sessions_.erase(id)`. -/
def DeleteSession {σ : Type} (sessions_ : List (Nat × σ)) (id : Nat) : List (Nat × σ) :=
  sessions_.filter (fun entry => entry.1 != id)

/-- The assignment `sessions_[index] = session` of the accept handler. -/
def insert {σ : Type} (sessions_ : List (Nat × σ)) (index : Nat) (session : σ) :
    List (Nat × σ) :=
  (index, session) :: sessions_.filter (fun entry => entry.1 != index)

/-- The registry together with the static cursor of `GenerateSessionId`. -/
structure State (σ : Type) where
  sessions_ : List (Nat × σ)
  id : Nat

/-- The operations that change the registry: an accepted connection (the accept handler of
`Server::Start`) and the removal of a session. -/
inductive Op (σ : Type) where
  | accept (session : σ)
  | delete (id : Nat)

/-- One registry operation: the accept handler generates an identifier and, unless it is
`kInvalidId`, stores the session under it; `delete` erases the key. -/
def step {σ : Type} (s : State σ) : Op σ → State σ
  | .accept session =>
    let r := GenerateSessionId s.sessions_ s.id
    if r.1 != kInvalidId then ⟨insert s.sessions_ r.1 session, r.2⟩ else ⟨s.sessions_, r.2⟩
  | .delete id => ⟨DeleteSession s.sessions_ id, s.id⟩

/-- A sequence of registry operations from a state on. -/
def run {σ : Type} (s : State σ) (ops : List (Op σ)) : State σ :=
  ops.foldl step s

/-- The registry of a fresh server: no session, cursor 0. -/
def initial (σ : Type) : State σ := ⟨[], 0⟩

end Server

/-- The number of calls of `Server::DeleteSession` in a trace. -/
def deleteCount (trace : List Event) : Nat := trace.count .deleteSession

/-- The number of `async_read_some` calls a trace posts on a socket. -/
def readsPosted (socket : Sock) (trace : List Event) : Nat :=
  (trace.filter (fun e => match e with
    | .readSome source _ => decide (source = socket)
    | _ => false)).length

/-! ## Concrete configurations and worlds used by the examples -/

/-- The 10-byte SOCKS4 request `04 01 00 50 5d b8 d8 22 61 00`: CONNECT 93.184.216.34:80 with
USER-ID "a". -/
def requestUserA : List Nat := [4, 1, 0, 0x50, 0x5d, 0xb8, 0xd8, 0x22, 0x61, 0]

/-- A concrete SOCKS4 configuration with USER-ID "bob". -/
def cfgBob : ConfigSocks4 := ⟨true, true, true, [98, 111, 98], [], 1080⟩

/-- A world in which every operation succeeds. -/
def worldOk : World :=
  { methodWriteOk := true, authReadCode := .success, authReadData := [],
    authWriteCode := .success, commandReadCode := .success, commandReadData := [],
    resolved := some ⟨.v4 0x5db8d822, 80⟩, connectOk := true,
    remote := ⟨.v4 0x5db8d822, 80⟩, listener := ⟨.v4 0x7f000001, 4000⟩, acceptOk := true,
    udpLocal := ⟨.v4 0x7f000001, 5000⟩,
    firstWriteOk := true, secondWriteOk := true }

/-- The writes on the client socket that occur in a trace, in order. -/
def writesOf (trace : List Event) : List (List Nat) :=
  trace.filterMap (fun e => match e with
    | .write bytes => some bytes
    | _ => none)

/-- A SOCKS5 configuration with the credentials "alice" / "s3cr3t". -/
def cfgAlice : ConfigSocks5 :=
  ⟨true, true, true, true, [0x61, 0x6c, 0x69, 0x63, 0x65], [0x73, 0x33, 0x63, 0x72, 0x33, 0x74],
    [], 1081⟩

/-- A SOCKS5 configuration without credentials. -/
def cfgOpen : ConfigSocks5 := ⟨true, true, true, true, [], [], [], 1081⟩

/-- The client's user/password message as the specification lays it out (RFC 1929):
version, ulen, username, plen, password. -/
def rfc1929Message (version : Nat) (username password : List Nat) : List Nat :=
  [version, username.length] ++ username ++ [password.length] ++ password

/-- The user name "alice". -/
def alice : List Nat := [0x61, 0x6c, 0x69, 0x63, 0x65]

/-- The password "s3cr3t". -/
def s3cr3t : List Nat := [0x73, 0x33, 0x63, 0x72, 0x33, 0x74]

/-- The SOCKS5 BIND request `05 02 00 01 00000000 0000`. -/
def bindRequest : List Nat := [5, 2, 0, 1, 0, 0, 0, 0, 0, 0]

/-- A UDP relay state (with a short buffer) whose client endpoint is 10.0.0.2:40000. -/
def udpStateClientSet : Socks5.UdpState :=
  ⟨List.replicate 16 0, ⟨.v4 0x0a000002, 40000⟩, ⟨.v4 0x0a000002, 40000⟩⟩

/-- The UDP endpoint 10.0.0.2:40000 used as the client of the examples. -/
def udpClient : Endpoint := ⟨.v4 0x0a000002, 40000⟩

/-- A UDP relay state (with a 32-byte buffer) whose client endpoint is 10.0.0.2:40000. -/
def udpStateWide : Socks5.UdpState := ⟨List.replicate 32 0, udpClient, udpClient⟩

/-- The 20-byte client datagram `00 00|00|03|0b "example.com"|00 35|de ad`: fragment 0,
domain name "example.com" (length octet 11), port 53, payload `de ad`. -/
def datagramExampleCom : List Nat :=
  [0, 0, 0, 3, 11, 0x65, 0x78, 0x61, 0x6d, 0x70, 0x6c, 0x65, 0x2e, 0x63, 0x6f, 0x6d, 0, 0x35,
    0xde, 0xad]

/-- The 12-byte client datagram `00 00|01|01|01020304|00 35|de ad`: fragment byte 1, literal
destination 1.2.3.4:53, payload `de ad`. -/
def datagramFragmentOne : List Nat := [0, 0, 1, 1, 1, 2, 3, 4, 0, 0x35, 0xde, 0xad]

/-- The SOCKS4A request of the specification's scenario 2,
`04|01|0050|00000001|7531|00|6578616d706c652e636f6d|00`, split into header, USER-ID "u1"
and host name "example.com". -/
def socks4aHeader : List Nat := [4, 1, 0, 0x50, 0, 0, 0, 1]

/-- The USER-ID "u1". -/
def userU1 : List Nat := [0x75, 0x31]

/-- The host name "example.com". -/
def hostExampleCom : List Nat :=
  [0x65, 0x78, 0x61, 0x6d, 0x70, 0x6c, 0x65, 0x2e, 0x63, 0x6f, 0x6d]

/-- The SOCKS4 request `04 01 00 50 5d b8 d8 22 00` of the specification's scenario 1:
CONNECT 93.184.216.34:80 with an empty USER-ID. -/
def requestScenario1 : List Nat := [4, 1, 0, 0x50, 0x5d, 0xb8, 0xd8, 0x22, 0]

/-- A SOCKS4 configuration without USER-ID and with both commands enabled. -/
def cfgSocks4Open : ConfigSocks4 := ⟨true, true, true, [], [], 1080⟩

/-- The 11-byte SOCKS4 request `04 01 00 50 5d b8 d8 22 62 6f 62`: CONNECT 93.184.216.34:80
followed by the bytes "bob" and no NUL. -/
def requestBobNoNul : List Nat := [4, 1, 0, 0x50, 0x5d, 0xb8, 0xd8, 0x22, 0x62, 0x6f, 0x62]

/-- A 4096-byte SOCKS4 request that fills the session buffer: the header
`04 01 00 50 5d b8 d8 22` followed by 4088 bytes `01`, so no NUL follows the header. -/
def requestUnterminated : List Nat :=
  [4, 1, 0, 0x50, 0x5d, 0xb8, 0xd8, 0x22] ++ List.replicate 4088 1

/-- A world whose command-request read delivers the SOCKS5 CONNECT request
`05 01 00 01 0a000001 0016` (10.0.0.1:22) and in which every operation succeeds. -/
def worldConnectRequest : World :=
  { worldOk with commandReadData := [5, 1, 0, 1, 0x0a, 0, 0, 1, 0, 0x16] }

/-- A world whose command-request read delivers `05 04 00 01 00000000 0000`: version 5,
address type IPv4, 10 bytes, but the command byte 4. -/
def worldUnknownCommand : World :=
  { worldOk with commandReadData := [5, 4, 0, 1, 0, 0, 0, 0, 0, 0] }

/-- A SOCKS5 configuration without credentials in which CONNECT is disabled. -/
def cfgNoConnect : ConfigSocks5 := ⟨true, false, true, true, [], [], [], 1081⟩

/-- A world in which the command-reply write fails. -/
def worldReplyFails : World := { worldOk with firstWriteOk := false }

/-- The 9-byte SOCKS4 request `04 5a 00 50 5d b8 d8 22 00`: version 4, the byte 90 where
the command is expected, empty USER-ID. -/
def requestStatusCommand : List Nat := [4, 90, 0, 0x50, 0x5d, 0xb8, 0xd8, 0x22, 0]

/-- The 4-byte client datagram `00 00 00 01`: an envelope header with address type IPv4 and
nothing after it. -/
def datagramHeaderOnly : List Nat := [0, 0, 0, 1]

/-- The 12-byte client datagram `00 00|00|01|01020304|00 35|de ad`: fragment 0, literal
destination 1.2.3.4:53, payload `de ad`. -/
def datagramLiteral : List Nat := [0, 0, 0, 1, 1, 2, 3, 4, 0, 0x35, 0xde, 0xad]

/-! # Theorems -/

/-! ## Buffers -/

/-- Reading back the first `data.length` bytes of a buffer that just received `data`. -/
theorem take_recvInto (buffer data : List Nat) (h : data.length ≤ buffer.length) :
    (recvInto buffer data).take data.length = data := by
  unfold recvInto
  rw [List.take_of_length_le h, List.take_left']
  rfl

/-- A scan for the first byte failing `p` that stops inside `l` is not affected by what
follows `l`. -/
theorem takeWhile_append_of_stop (p : Nat → Bool) (l r : List Nat)
    (h : (l.takeWhile p).length < l.length) : (l ++ r).takeWhile p = l.takeWhile p := by
  induction l with
  | nil => simp at h
  | cons a l ih =>
    by_cases hp : p a = true
    · simp only [List.cons_append, List.takeWhile_cons, hp, if_true, List.length_cons] at h ⊢
      rw [ih (by omega)]
    · simp [List.takeWhile_cons, hp]

/-- When the received chunk itself holds a NUL at or after `offset`, the string extracted
from the session buffer is the run of non-NUL bytes of the chunk starting at `offset`. -/
theorem GetStringFromArray_recvInto (buffer data : List Nat) (offset : Nat)
    (hlen : data.length ≤ buffer.length)
    (hnul : offset + ((data.drop offset).takeWhile (fun c => c != 0)).length < data.length) :
    Common.GetStringFromArray (recvInto buffer data) offset =
      (data.drop offset).takeWhile (fun c => c != 0) := by
  have hoff : offset ≤ data.length := by omega
  have hstop : ((data.drop offset).takeWhile (fun c => c != 0)).length
      < (data.drop offset).length := by
    rw [List.length_drop]; omega
  unfold Common.GetStringFromArray recvInto
  rw [List.take_of_length_le hlen, List.drop_append_of_le_length hoff,
    takeWhile_append_of_stop _ _ _ hstop]
  have h1 : (data ++ List.drop data.length buffer).length > offset := by
    rw [List.length_append]; omega
  have h2 : offset + ((data.drop offset).takeWhile (fun c => c != 0)).length
      < (data ++ List.drop data.length buffer).length := by
    rw [List.length_append]; omega
  simp only [h1, h2, if_true]

/-- A buffer at least as long as the received chunk holds the chunk followed by its own
old tail. -/
theorem recvInto_eq_append (buffer data : List Nat) (h : data.length ≤ buffer.length) :
    recvInto buffer data = data ++ buffer.drop data.length := by
  unfold recvInto
  rw [List.take_of_length_le h]

/-- Reading inside the first list of a concatenation. -/
theorem byteAt_append_left (l r : List Nat) (i : Nat) (h : i < l.length) :
    byteAt (l ++ r) i = byteAt l i := by
  unfold byteAt
  rw [List.getD_eq_getElem?_getD, List.getD_eq_getElem?_getD, List.getElem?_append_left h]

/-- Reading past the first list of a concatenation. -/
theorem byteAt_append_right (l r : List Nat) (i : Nat) :
    byteAt (l ++ r) (l.length + i) = byteAt r i := by
  unfold byteAt
  rw [List.getD_eq_getElem?_getD, List.getD_eq_getElem?_getD,
    List.getElem?_append_right (by omega)]
  simp

/-- Reading a byte of a prefix. -/
theorem byteAt_take (l : List Nat) (n i : Nat) (h : i < n) :
    byteAt (l.take n) i = byteAt l i := by
  unfold byteAt
  rw [List.getD_eq_getElem?_getD, List.getD_eq_getElem?_getD, List.getElem?_take_of_lt h]

/-! ## C1: the SOCKS4 request validator -/

/-- What the SOCKS4 validator computes: at least 8 bytes, and either version 4 with a
command byte in 1..2, or a command/status byte in 90..93 whatever the version. -/
theorem Socks4.IsValidMessage_iff (d : List Nat) :
    Socks4.IsValidMessage d = true ↔
      8 ≤ d.length ∧
        ((byteAt d 0 = 4 ∧ 1 ≤ byteAt d 1 ∧ byteAt d 1 ≤ 2) ∨
          (90 ≤ byteAt d 1 ∧ byteAt d 1 ≤ 93)) := by
  unfold Socks4.IsValidMessage Socks4.sizeofMessage Socks4.kConnect Socks4.kBind
    Socks4.kGranted Socks4.kClientConflict
  by_cases h : 8 ≤ d.length
  · simp [h]
  · simp [h]

/-- C1 (code defect): the SOCKS4 validator accepts the 8-byte buffer
`05 5a 00 00 00 00 00 00`, whose version byte is not 4 and whose command byte is neither
1 nor 2, so acceptance is not equivalent to "length ≥ 8, d[0] = 4, d[1] ∈ {1,2}". -/
theorem C1_IsValidMessage_accepts_status_byte :
    Socks4.IsValidMessage [5, 90, 0, 0, 0, 0, 0, 0] = true ∧
      ¬ (8 ≤ [5, 90, 0, 0, 0, 0, 0, 0].length ∧ byteAt [5, 90, 0, 0, 0, 0, 0, 0] 0 = 4 ∧
          (byteAt [5, 90, 0, 0, 0, 0, 0, 0] 1 = 1 ∨ byteAt [5, 90, 0, 0, 0, 0, 0, 0] 1 = 2)) := by
  decide

/-! ## C2: the SOCKS5 request validator -/

/-- What acceptance by the SOCKS5 request validator guarantees: version 5, a command in
1..3, an address type in {1, 3, 4}, at least 10 bytes for IPv4, 22 for IPv6, and 5 for a
domain name. -/
theorem IsValidTcpMessage_sound (d : List Nat) (h : Socks5.IsValidTcpMessage d = true) :
    byteAt d 0 = 5 ∧ (1 ≤ byteAt d 1 ∧ byteAt d 1 ≤ 3) ∧
      ((byteAt d 3 = 1 ∧ 10 ≤ d.length) ∨ (byteAt d 3 = 4 ∧ 22 ≤ d.length) ∨
        (byteAt d 3 = 3 ∧ 5 ≤ d.length)) := by
  unfold Socks5.IsValidTcpMessage Socks5.sizeofTcpMessage Socks5.sizeofAddressV4
    Socks5.sizeofAddressV6 Socks5.sizeofAddressDomain Socks5.kConnect Socks5.kUdpAssociate
    Socks5.kIPv4 Socks5.kIPv6 Socks5.kDomainName at h
  split at h
  · split at h
    · rename_i hl hc
      simp only [Bool.and_eq_true, beq_iff_eq, decide_eq_true_eq] at hc
      refine ⟨hc.1.1, ⟨hc.1.2, hc.2⟩, ?_⟩
      split at h
      · rename_i h1; left; exact ⟨h1, by simpa using h⟩
      · split at h
        · rename_i h4; right; left; exact ⟨h4, by simpa using h⟩
        · split at h
          · rename_i h3; right; right; exact ⟨h3, by simpa using h⟩
          · simp at h
    · simp at h
  · simp at h

/-- For an accepted request with a literal IPv4 or IPv6 address the parser stays inside
the received bytes. -/
theorem DoResolveAddress_readEnd_literal (d : List Nat) (h : Socks5.IsValidTcpMessage d = true)
    (hlit : byteAt d 3 ≠ 3) : Socks5.DoResolveAddress_readEnd d ≤ d.length := by
  have hs := IsValidTcpMessage_sound d h
  unfold Socks5.DoResolveAddress_readEnd Socks5.sizeofTcpMessage Socks5.sizeofAddressV4
    Socks5.sizeofAddressV6 Socks5.sizeofAddressDomain Socks5.kIPv4 Socks5.kIPv6
    Socks5.kDomainName
  rcases hs.2.2 with h1 | h4 | h3
  · simp [h1.1]; omega
  · simp [h4.1]; omega
  · exact absurd h3.1 hlit

/-- C2 (code defect): the 5-byte request `05 01 00 03 c8` (domain name, length octet 200)
is accepted although 4 + (1 + 200) + 2 = 207 bytes would be needed; the address parser then
reads up to offset 207 of the session buffer, and the host name and port it hands to the
resolver are bytes left in the buffer by an earlier read, not bytes of this request. -/
theorem C2_IsValidTcpMessage_accepts_truncated_domain :
    Socks5.IsValidTcpMessage [5, 1, 0, 3, 200] = true ∧
      [5, 1, 0, 3, 200].length < 4 + (1 + 200) + 2 ∧
      Socks5.DoResolveAddress_readEnd [5, 1, 0, 3, 200] = 207 ∧
      Socks5.IsValidTcpMessage [5, 1, 0, 3, 2] = true ∧
      Socks5.DoResolveAddress_ (recvInto [5, 2, 0, 2, 9, 0x61, 0x62, 0, 0x50, 0] [5, 1, 0, 3, 2])
        = .domain [0x61, 0x62] 80 := by
  decide

/-! ## C3: SOCKS5 method selection -/

/-- What acceptance by the SOCKS5 offer validator guarantees. -/
theorem IsValidAuthMessage_sound (d : List Nat) (h : Socks5.IsValidAuthMessage d = true) :
    2 < d.length ∧ byteAt d 0 = 5 ∧ 0 < byteAt d 1 ∧ 2 + byteAt d 1 ≤ d.length := by
  unfold Socks5.IsValidAuthMessage Socks5.sizeofAuthenticationMessage at h
  split at h
  · rename_i hl
    simp only [Bool.and_eq_true, beq_iff_eq, decide_eq_true_eq] at h
    exact ⟨hl, h.1.1, h.1.2, by omega⟩
  · simp at h

/-- The methods the selection loop collects from a buffer are determined by the first
`2 + count` bytes of the buffer. -/
theorem offeredMethods_of_prefix (b₁ b₂ : List Nat) (n : Nat) (hn : byteAt b₂ 1 = n)
    (h : b₁.take (2 + n) = b₂.take (2 + n)) :
    byteAt b₁ 1 = n ∧ Socks5.offeredMethods b₁ = Socks5.offeredMethods b₂ := by
  have h1 : byteAt b₁ 1 = byteAt b₂ 1 := by
    rw [← byteAt_take b₁ (2 + n) 1 (by omega), ← byteAt_take b₂ (2 + n) 1 (by omega), h]
  refine ⟨by rw [h1, hn], ?_⟩
  unfold Socks5.offeredMethods Socks5.sizeofAuthenticationMessage
  rw [h1, hn]
  have e₁ : (b₁.drop 2).take n = (b₁.take (2 + n)).drop 2 := by
    rw [List.drop_take]; congr 1; omega
  have e₂ : (b₂.drop 2).take n = (b₂.take (2 + n)).drop 2 := by
    rw [List.drop_take]; congr 1; omega
  rw [e₁, e₂, h]

/-- The methods collected from the session buffer after an accepted offer `data` are the
`count` bytes of `data` after its header. -/
theorem offeredMethods_recvInto (buffer data : List Nat) (hlen : data.length ≤ buffer.length)
    (hn : 2 + byteAt data 1 ≤ data.length) :
    Socks5.offeredMethods (recvInto buffer data) = (data.drop 2).take (byteAt data 1) := by
  have hp := offeredMethods_of_prefix (recvInto buffer data) data (byteAt data 1) rfl
    (by rw [recvInto_eq_append _ _ hlen, List.take_append_of_le_length hn])
  rw [hp.2]
  rfl

/-- The two bytes written after a method was stored over the count byte of an accepted
offer. -/
theorem take_two_set_method (b : List Nat) (method : Nat) (hl : 2 ≤ b.length) :
    (b.set 1 method).take Socks5.sizeofAuthenticationMessage = [byteAt b 0, method] := by
  match b, hl with
  | x :: y :: tl, _ => simp [Socks5.sizeofAuthenticationMessage, byteAt]

/-- C3: for every accepted SOCKS5 auth offer `data` with method count `n = data[1]` and
offered methods `m = data[2 .. 2+n)`: with username and password both configured the
method chosen is 0x02 exactly when 0x02 occurs in `m`, otherwise it is 0x00 exactly when
0x00 occurs in `m`; when a method is chosen the session's first write is `05|method`;
when none is chosen the session writes nothing and is deleted; and two offers that agree on
their first `2 + n` bytes lead to the same choice. -/
theorem C3_method_selection (cfg : ConfigSocks5) (data : List Nat) (w : World)
    (hlen : data.length ≤ kTcpBufferSize) (hvalid : Socks5.IsValidAuthMessage data = true) :
    (Socks5.selectMethod cfg (recvInto (List.replicate kTcpBufferSize 0) data) =
        if cfg.username ≠ [] ∧ cfg.password ≠ [] then
          (if 2 ∈ (data.drop 2).take (byteAt data 1) then some 2 else none)
        else
          (if 0 ∈ (data.drop 2).take (byteAt data 1) then some 0 else none)) ∧
      (∀ method,
        Socks5.selectMethod cfg (recvInto (List.replicate kTcpBufferSize 0) data) = some method →
          ∃ rest, Socks5.Start cfg .success data w = .write [5, method] :: rest) ∧
      (Socks5.selectMethod cfg (recvInto (List.replicate kTcpBufferSize 0) data) = none →
          Socks5.Start cfg .success data w = [.log .error, .deleteSession]) ∧
      (∀ data' : List Nat, data'.length ≤ kTcpBufferSize →
        data'.take (2 + byteAt data 1) = data.take (2 + byteAt data 1) →
          Socks5.selectMethod cfg (recvInto (List.replicate kTcpBufferSize 0) data') =
            Socks5.selectMethod cfg (recvInto (List.replicate kTcpBufferSize 0) data)) := by
  have hs := IsValidAuthMessage_sound data hvalid
  have hbuf : data.length ≤ (List.replicate kTcpBufferSize 0).length := by
    rw [List.length_replicate]; exact hlen
  have hoff := offeredMethods_recvInto _ data hbuf hs.2.2.2
  have htake := take_recvInto _ data hbuf
  have hstart : Socks5.Start cfg .success data w =
      Socks5.DoProcessAuthentication cfg (recvInto (List.replicate kTcpBufferSize 0) data) w := by
    simp [Socks5.Start, ErrorCode.failed, htake, hvalid]
  have hb0 : byteAt (recvInto (List.replicate kTcpBufferSize 0) data) 0 = 5 := by
    rw [recvInto_eq_append _ _ hbuf, byteAt_append_left _ _ _ (by omega)]; exact hs.2.1
  have hbl : 2 ≤ (recvInto (List.replicate kTcpBufferSize 0) data).length := by
    rw [recvInto_eq_append _ _ hbuf, List.length_append]; omega
  refine ⟨?_, ?_, ?_, ?_⟩
  · unfold Socks5.selectMethod
    rw [hoff]
    by_cases hu : cfg.username = [] <;> by_cases hp : cfg.password = [] <;>
      simp [hu, hp, Socks5.kUserPassword, Socks5.kNoAuth]
  · intro method hm
    rw [hstart]
    unfold Socks5.DoProcessAuthentication
    rw [hm]
    simp only [take_two_set_method _ _ hbl, hb0]
    exact ⟨_, rfl⟩
  · intro hm
    rw [hstart]
    unfold Socks5.DoProcessAuthentication
    rw [hm]
    rfl
  · intro data' hlen' hpre
    have hbuf' : data'.length ≤ (List.replicate kTcpBufferSize 0).length := by
      rw [List.length_replicate]; exact hlen'
    have hlen2 : 2 + byteAt data 1 ≤ data'.length := by
      have := congrArg List.length hpre
      rw [List.length_take, List.length_take] at this
      omega
    have hp := offeredMethods_of_prefix (recvInto (List.replicate kTcpBufferSize 0) data')
      (recvInto (List.replicate kTcpBufferSize 0) data) (byteAt data 1)
      (by rw [recvInto_eq_append _ _ hbuf, byteAt_append_left _ _ _ (by omega)])
      (by rw [recvInto_eq_append _ _ hbuf, recvInto_eq_append _ _ hbuf',
            List.take_append_of_le_length hs.2.2.2, List.take_append_of_le_length hlen2, hpre])
    unfold Socks5.selectMethod
    rw [hp.2]

/-- C3 at the offer `05 02 00 02 ff` with credentials configured: the trailing `ff` is not
among the two offered methods and the session first writes `05 02`. -/
theorem C3_method_selection_witness :
    ∃ rest, Socks5.Start cfgAlice .success [5, 2, 0, 2, 0xff] worldOk = .write [5, 2] :: rest :=
  (C3_method_selection cfgAlice [5, 2, 0, 2, 0xff] worldOk (by decide) (by decide)).2.1 2
    (by
      rw [(C3_method_selection cfgAlice [5, 2, 0, 2, 0xff] worldOk (by decide) (by decide)).1]
      decide)

/-! ## C4, C5, C6: the user/password negotiator -/

/-- Every byte read from a buffer of bytes is a byte. -/
theorem byteAt_lt (l : List Nat) (h : ∀ x ∈ l, x < 256) (i : Nat) : byteAt l i < 256 := by
  unfold byteAt
  rw [List.getD_eq_getElem?_getD]
  by_cases hi : i < l.length
  · rw [List.getElem?_eq_getElem hi]
    exact h _ (List.getElem_mem _)
  · rw [List.getElem?_eq_none (by omega)]
    decide

/-- A slice taken with `drop` and `take` inside the buffer holds the bytes at the
consecutive offsets `off, off + 1, ..., off + n - 1`. -/
theorem slice_eq_map_range (l : List Nat) (off n : Nat) (h : off + n ≤ l.length) :
    (l.drop off).take n = (List.range n).map (fun i => byteAt l (off + i)) := by
  apply List.ext_getElem
  · simp; omega
  · intro i h₁ h₂
    have hi : i < n := by simpa using h₂
    simp only [List.getElem_take, List.getElem_drop, List.getElem_map, List.getElem_range, byteAt]
    rw [List.getD_eq_getElem?_getD, List.getElem?_eq_getElem (by omega)]
    rfl

/-- The negotiation buffer after the read is 513 bytes long. -/
theorem length_negotiation_buffer (data : List Nat)
    (hlen : data.length ≤ Socks5.UsernamePassword.kSizeOfNegotiation) :
    (recvInto (List.replicate Socks5.UsernamePassword.kSizeOfNegotiation 0) data).length
      = 513 := by
  unfold Socks5.UsernamePassword.kSizeOfNegotiation at *
  rw [recvInto_eq_append _ _ (by rw [List.length_replicate]; exact hlen),
    List.length_append, List.length_drop, List.length_replicate]
  omega

/-- The negotiation buffer after the read holds bytes only. -/
theorem negotiation_buffer_bytes (data : List Nat) (hbytes : ∀ x ∈ data, x < 256) :
    ∀ x ∈ recvInto (List.replicate Socks5.UsernamePassword.kSizeOfNegotiation 0) data,
      x < 256 := by
  intro x hx
  unfold recvInto at hx
  rcases List.mem_append.mp hx with h | h
  · exact hbytes x (List.mem_of_mem_take h)
  · have := List.mem_of_mem_drop h
    rw [List.mem_replicate] at this
    omega

/-- C4: for every user/password message (in particular every one with version byte 1; the
version byte plays no part), held zero-padded in the 513-byte negotiation buffer `b`, with
`ulen = b[1]`, `username = b[2 .. 2+ulen)`, `plen = b[2+ulen]` and
`password = b[3+ulen .. 3+ulen+plen)`: the negotiator writes `00 00` and hands the callback
the result of that write when both equal the configured pair, and writes `00 01` and hands
the callback access-denied otherwise; so the callback receives success only in the first
case. -/
theorem C4_userpass_compare (cfg : ConfigSocks5) (data : List Nat) (wcode : ErrorCode)
    (hlen : data.length ≤ Socks5.UsernamePassword.kSizeOfNegotiation)
    (hbytes : ∀ x ∈ data, x < 256)
    (b username password : List Nat)
    (hb : b = recvInto (List.replicate Socks5.UsernamePassword.kSizeOfNegotiation 0) data)
    (hu : username = (List.range (byteAt b 1)).map (fun i => byteAt b (2 + i)))
    (hp : password = (List.range (byteAt b (2 + byteAt b 1))).map
      (fun i => byteAt b (3 + byteAt b 1 + i))) :
    (username = cfg.username ∧ password = cfg.password →
        Socks5.UsernamePassword.Execute cfg .success data wcode = ⟨some [0, 0], wcode⟩) ∧
      (¬ (username = cfg.username ∧ password = cfg.password) →
        Socks5.UsernamePassword.Execute cfg .success data wcode
          = ⟨some [0, 1], .access_denied⟩) ∧
      ((Socks5.UsernamePassword.Execute cfg .success data wcode).callback = .success →
        username = cfg.username ∧ password = cfg.password) := by
  have hbl : b.length = 513 := by rw [hb]; exact length_negotiation_buffer data hlen
  have hbb : ∀ i, byteAt b i < 256 := by
    intro i; rw [hb]; exact byteAt_lt _ (negotiation_buffer_bytes data hbytes) i
  have h1 := hbb 1
  have h2 := hbb (2 + byteAt b 1)
  have hcred : Socks5.UsernamePassword.GetCredentials b = (username, password) := by
    unfold Socks5.UsernamePassword.GetCredentials
    dsimp only
    rw [hu, hp, slice_eq_map_range b 2 (byteAt b 1) (by omega),
      slice_eq_map_range b (2 + byteAt b 1 + 1) (byteAt b (2 + byteAt b 1)) (by omega)]
    have e : 2 + byteAt b 1 + 1 = 3 + byteAt b 1 := by omega
    rw [e]
  have hex : Socks5.UsernamePassword.Execute cfg .success data wcode =
      ⟨some [0, if (decide (username = cfg.username) && decide (password = cfg.password))
          then 0 else 1],
        if (decide (username = cfg.username) && decide (password = cfg.password))
          then wcode else .access_denied⟩ := by
    unfold Socks5.UsernamePassword.Execute
    simp only [← hb, hcred, ErrorCode.failed, Socks5.UsernamePassword.IsValidMessage]
    rfl
  rw [hex]
  by_cases hcu : username = cfg.username <;> by_cases hcp : password = cfg.password <;>
    simp [hcu, hcp]

set_option maxRecDepth 20000 in
/-- C4 at the message `01 05 "alice" 06 "s3cr3t"` with that pair configured: the reply is
`00 00` and the callback receives the (successful) result of the write. -/
theorem C4_userpass_compare_witness :
    Socks5.UsernamePassword.Execute cfgAlice .success
        [1, 5, 0x61, 0x6c, 0x69, 0x63, 0x65, 6, 0x73, 0x33, 0x63, 0x72, 0x33, 0x74] .success
      = ⟨some [0, 0], .success⟩ :=
  (C4_userpass_compare cfgAlice
    [1, 5, 0x61, 0x6c, 0x69, 0x63, 0x65, 6, 0x73, 0x33, 0x63, 0x72, 0x33, 0x74] .success
    (by decide) (by decide) _ _ _ rfl rfl rfl).1 (by decide)

set_option maxRecDepth 20000 in
/-- C5 (code defect): the message `05 05 "alice" 06 "s3cr3t"`, whose version byte is 5 and
not 1, is answered `00 00` and the callback receives success when "alice" / "s3cr3t" is the
configured pair: the version byte is never examined. -/
theorem C5_version_byte_not_checked :
    byteAt [5, 5, 0x61, 0x6c, 0x69, 0x63, 0x65, 6, 0x73, 0x33, 0x63, 0x72, 0x33, 0x74] 0 ≠ 1 ∧
      Socks5.UsernamePassword.Execute cfgAlice .success
          [5, 5, 0x61, 0x6c, 0x69, 0x63, 0x65, 6, 0x73, 0x33, 0x63, 0x72, 0x33, 0x74] .success
        = ⟨some [0, 0], .success⟩ := by
  decide

/-- The negotiator's parser recovers user name and password from a message laid out as
version, ulen, username, plen, password. -/
theorem GetCredentials_rfc1929Message (version : Nat) (u p : List Nat)
    (hu : u.length ≤ 255) (hp : p.length ≤ 255) :
    Socks5.UsernamePassword.GetCredentials
        (recvInto (List.replicate Socks5.UsernamePassword.kSizeOfNegotiation 0)
          (rfc1929Message version u p)) = (u, p) := by
  have hl : (rfc1929Message version u p).length = 2 + u.length + 1 + p.length := by
    simp [rfc1929Message]; omega
  rw [recvInto_eq_append _ _ (by
    rw [List.length_replicate, hl]; unfold Socks5.UsernamePassword.kSizeOfNegotiation; omega)]
  generalize List.drop (rfc1929Message version u p).length
    (List.replicate Socks5.UsernamePassword.kSizeOfNegotiation 0) = tail
  have hshape : rfc1929Message version u p ++ tail =
      [version, u.length] ++ (u ++ ([p.length] ++ (p ++ tail))) := by
    simp [rfc1929Message]
  rw [hshape]
  unfold Socks5.UsernamePassword.GetCredentials
  have b1 : byteAt ([version, u.length] ++ (u ++ ([p.length] ++ (p ++ tail)))) 1 = u.length := by
    simp [byteAt]
  have b2 : byteAt ([version, u.length] ++ (u ++ ([p.length] ++ (p ++ tail)))) (2 + u.length)
      = p.length := by
    have e := byteAt_append_right [version, u.length] (u ++ ([p.length] ++ (p ++ tail))) u.length
    have e' := byteAt_append_right u ([p.length] ++ (p ++ tail)) 0
    simp only [List.length_cons, List.length_nil, Nat.add_zero] at e e'
    rw [show 2 + u.length = 0 + 1 + 1 + u.length by omega, e, e']
    simp [byteAt]
  dsimp only
  rw [b1, b2]
  have d1 : List.drop 2 ([version, u.length] ++ (u ++ ([p.length] ++ (p ++ tail))))
      = u ++ ([p.length] ++ (p ++ tail)) := by simp
  have d2 : List.drop (2 + u.length + 1)
      ([version, u.length] ++ (u ++ ([p.length] ++ (p ++ tail)))) = p ++ tail := by
    have : [version, u.length] ++ (u ++ ([p.length] ++ (p ++ tail)))
        = ([version, u.length] ++ u ++ [p.length]) ++ (p ++ tail) := by simp
    rw [this, List.drop_left' (by simp; omega)]
  rw [d1, d2, List.take_left' rfl, List.take_left' rfl]

/-- The negotiator's answer to a message laid out as version, ulen, username, plen,
password, whatever the version byte is. -/
theorem Execute_rfc1929Message (cfg : ConfigSocks5) (version : Nat) (u p : List Nat)
    (wcode : ErrorCode) (hu : u.length ≤ 255) (hp : p.length ≤ 255) :
    Socks5.UsernamePassword.Execute cfg .success (rfc1929Message version u p) wcode =
      ⟨some [0, if u = cfg.username ∧ p = cfg.password then 0 else 1],
        if u = cfg.username ∧ p = cfg.password then wcode else .access_denied⟩ := by
  unfold Socks5.UsernamePassword.Execute
  simp only [GetCredentials_rfc1929Message version u p hu hp, ErrorCode.failed,
    Socks5.UsernamePassword.IsValidMessage]
  by_cases hcu : u = cfg.username <;> by_cases hcp : p = cfg.password <;> simp [hcu, hcp]

set_option maxRecDepth 20000 in
/-- C6 as stated fails: with "alice" / "s3cr3t" configured, the message
`01 05 "alice" 06 "s3cr3t"` is not answered `01 00` (the reply is `00 00`), and the message
with the wrong password "s3cr3T" is not answered `01 01` (the reply is `00 01`). -/
theorem C6_reply_version_counterexample :
    (Socks5.UsernamePassword.Execute cfgAlice .success
        [1, 5, 0x61, 0x6c, 0x69, 0x63, 0x65, 6, 0x73, 0x33, 0x63, 0x72, 0x33, 0x74]
        .success).written ≠ some [1, 0] ∧
      (Socks5.UsernamePassword.Execute cfgAlice .success
        [1, 5, 0x61, 0x6c, 0x69, 0x63, 0x65, 6, 0x73, 0x33, 0x63, 0x72, 0x33, 0x54]
        .success).written ≠ some [1, 1] := by
  decide

/-- C6 (amended): in the SOCKS5 user/password sub-negotiation the reply written to the
client carries version byte 0x00: for a message `01|ulen|username|plen|password` it is
`00 00` when the presented credentials equal the configured pair and `00 01` when the
password is wrong. -/
theorem C6_reply_version_zero (cfg : ConfigSocks5) (u p : List Nat) (wcode : ErrorCode)
    (hu : u.length ≤ 255) (hp : p.length ≤ 255) :
    (u = cfg.username → p = cfg.password →
        (Socks5.UsernamePassword.Execute cfg .success (rfc1929Message 1 u p) wcode).written
          = some [0, 0]) ∧
      (p ≠ cfg.password →
        (Socks5.UsernamePassword.Execute cfg .success (rfc1929Message 1 u p) wcode).written
          = some [0, 1]) := by
  rw [Execute_rfc1929Message cfg 1 u p wcode hu hp]
  constructor
  · intro h1 h2
    simp [h1, h2]
  · intro h2
    simp [h2]

/-- C6 (amended) at "alice" / "s3cr3t": the reply to the right credentials is `00 00`. -/
theorem C6_reply_version_zero_witness :
    (Socks5.UsernamePassword.Execute cfgAlice .success (rfc1929Message 1 alice s3cr3t)
      .success).written = some [0, 0] :=
  (C6_reply_version_zero cfgAlice alice s3cr3t .success (by decide) (by decide)).1 rfl rfl

/-! ## C7: the SOCKS4 USER-ID check -/

/-- C7: for every SOCKS4 request accepted by the validator, with `u` the USER-ID extracted
from the session buffer and `c` the configured USER-ID, the session enters command dispatch
if and only if `c` is empty or `u = c`; otherwise it writes `00 5d 00 00 00 00 00 00`,
is deleted, and neither the CONNECT nor the BIND handler is entered, whatever the command
flags are. -/
theorem C7_user_id_gate (cfg : ConfigSocks4) (data : List Nat) (w : World)
    (hlen : data.length ≤ kTcpBufferSize) (hvalid : Socks4.IsValidMessage data = true) :
    (Event.executeCommand ∈ Socks4.Start cfg .success data w ↔
        (cfg.user_id = [] ∨
          Common.GetStringFromArray (recvInto (List.replicate kTcpBufferSize 0) data)
            Socks4.sizeofMessage = cfg.user_id)) ∧
      ((cfg.user_id = [] ∨
          Common.GetStringFromArray (recvInto (List.replicate kTcpBufferSize 0) data)
            Socks4.sizeofMessage = cfg.user_id) →
        Socks4.Start cfg .success data w =
          Socks4.DoExecuteCommand cfg (recvInto (List.replicate kTcpBufferSize 0) data)
            (Common.GetStringFromArray (recvInto (List.replicate kTcpBufferSize 0) data)
              Socks4.sizeofMessage) w) ∧
      (¬ (cfg.user_id = [] ∨
          Common.GetStringFromArray (recvInto (List.replicate kTcpBufferSize 0) data)
            Socks4.sizeofMessage = cfg.user_id) →
        Socks4.Start cfg .success data w =
            [.write [0, 0x5d, 0, 0, 0, 0, 0, 0], .log .error, .deleteSession] ∧
          Event.connectCommand ∉ Socks4.Start cfg .success data w ∧
          Event.bindCommand ∉ Socks4.Start cfg .success data w) := by
  have hbuf : (List.replicate kTcpBufferSize 0).length = kTcpBufferSize := List.length_replicate _ _
  have htake := take_recvInto (List.replicate kTcpBufferSize 0) data (by rw [hbuf]; exact hlen)
  have hstart : Socks4.Start cfg .success data w =
      Socks4.DoProcessAuthentication cfg (recvInto (List.replicate kTcpBufferSize 0) data) w := by
    simp [Socks4.Start, ErrorCode.failed, htake, hvalid]
  rw [hstart]
  generalize recvInto (List.replicate kTcpBufferSize 0) data = buffer
  unfold Socks4.DoProcessAuthentication
  by_cases hc : cfg.user_id = []
  · simp [hc, Socks4.DoExecuteCommand]
  · by_cases hu : Common.GetStringFromArray buffer Socks4.sizeofMessage = cfg.user_id
    · simp [hu, Socks4.DoExecuteCommand]
    · simp [hc, hu, Socks4.DoSendReplyAndDeleteSession, Socks4.DoSendReply, kEmptyEndpoint,
        Socks4.replyBytes, Socks4.kClientConflict, be16, be32, DeleteSession]

/-- C7 at a concrete request: `04 01 00 50 5d b8 d8 22 61 00` (USER-ID "a") against the
configured USER-ID "bob" is answered `00 5d 00 00 00 00 00 00` and the session is deleted. -/
theorem C7_user_id_gate_witness :
    Socks4.Start cfgBob .success requestUserA worldOk =
      [.write [0, 0x5d, 0, 0, 0, 0, 0, 0], .log .error, .deleteSession] :=
  ((C7_user_id_gate cfgBob requestUserA worldOk (by decide) (by decide)).2.2
    (by
      rw [GetStringFromArray_recvInto _ _ _ (by rw [List.length_replicate]; decide)
        (by decide)]
      decide)).1

/-! ## C9: SOCKS5 BIND -/

/-- On the success path of SOCKS5 BIND (first reply written, accept succeeded) the only
reply written is the one carrying the listener's endpoint, and the relay reads follow the
accept directly. -/
theorem DoBindCommand__success_trace (buffer : List Nat) (w : World)
    (hw : w.firstWriteOk = true) (ha : w.acceptOk = true) :
    Socks5.DoBindCommand_ buffer w =
      [.bindCommand, .listen (decide (byteAt buffer 3 = Socks5.kIPv6)),
        .write (Socks5.replyBytes Socks5.kOk w.listener), .accept, .log .info,
        .readSome .client .application, .readSome .application .client,
        .readSome .application .client, .readSome .client .application] := by
  simp [Socks5.DoBindCommand_, Socks5.DoSendReply_, hw, ha, DoTunnelingTraffic,
    DoTunnelingReceive]

/-- C9 (code defect): for the BIND request `05 02 00 01 00000000 0000` with listener
127.0.0.1:4000 and an accepted peer 93.184.216.34:80, the SOCKS5 handler writes the single
reply `05 00 00 01 7f000001 0fa0` and posts the relay reads right after the accept; no second
reply carrying the peer's endpoint is written. The SOCKS4 handler in the same situation
writes two replies, the second one carrying the peer. -/
theorem C9_socks5_bind_writes_one_reply :
    Socks5.DoBindCommand_ bindRequest worldOk =
        [.bindCommand, .listen false, .write [5, 0, 0, 1, 127, 0, 0, 1, 0x0f, 0xa0], .accept,
          .log .info, .readSome .client .application, .readSome .application .client,
          .readSome .application .client, .readSome .client .application] ∧
      writesOf (Socks5.DoBindCommand_ bindRequest worldOk)
        = [[5, 0, 0, 1, 127, 0, 0, 1, 0x0f, 0xa0]] ∧
      writesOf (Socks4.DoBindCommand worldOk)
        = [[0, 90, 0x0f, 0xa0, 127, 0, 0, 1], [0, 90, 0, 80, 93, 184, 216, 34]] := by
  decide

/-! ## C10: UDP datagrams from the application side -/

/-- A datagram from a sender other than the (already known) client is sent to the client
behind an envelope built from the client's own endpoint. -/
theorem DoTunnelingUdpTraffic__from_application (s : Socks5.UdpState) (sender : Endpoint)
    (data : List Nat) (resolved : Option Endpoint) (sendOk : Bool)
    (hset : s.udp_endpoint_client_ ≠ Socks5.unsetEndpointOf s.udp_endpoint_client_)
    (hne : s.udp_endpoint_client_ ≠ sender) (hlen : data.length ≤ s.buffer.length) :
    (Socks5.DoTunnelingUdpTraffic_ s .success sender data resolved sendOk).2 =
      [.sendTo (Socks5.CreateUdpMessage s.udp_endpoint_client_ ++ data) s.udp_endpoint_client_]
        ++ (if sendOk then [.receiveFrom] else [.log .warning]) := by
  unfold Socks5.DoTunnelingUdpTraffic_
  simp only [ErrorCode.failed, hset, hne, if_false, take_recvInto _ _ hlen]
  simp

/-- C10 (code defect): with client endpoint 10.0.0.2:40000, a datagram `de ad` received from
1.2.3.4:53 is sent to the client as `00 00|00|01|0a000002|9c40|de ad`: the envelope encodes
the client's own endpoint, not the sender 1.2.3.4:53 (`00 00|00|01|01020304|0035|de ad`). -/
theorem C10_envelope_carries_client_endpoint :
    (Socks5.DoTunnelingUdpTraffic_ udpStateClientSet .success ⟨.v4 0x01020304, 53⟩
        [0xde, 0xad] none true).2 =
      [.sendTo [0, 0, 0, 1, 0x0a, 0, 0, 2, 0x9c, 0x40, 0xde, 0xad] ⟨.v4 0x0a000002, 40000⟩,
        .receiveFrom] ∧
      (Socks5.DoTunnelingUdpTraffic_ udpStateClientSet .success ⟨.v4 0x01020304, 53⟩
        [0xde, 0xad] none true).2 ≠
      [.sendTo [0, 0, 0, 1, 1, 2, 3, 4, 0, 0x35, 0xde, 0xad] ⟨.v4 0x0a000002, 40000⟩,
        .receiveFrom] := by
  decide

/-! ## C11: UDP datagrams from the client -/

/-- The part of the session buffer from offset `k` up to the end of the received chunk. -/
theorem drop_take_recvInto (buffer data : List Nat) (k : Nat)
    (hlen : data.length ≤ buffer.length) (hk : k ≤ data.length) :
    ((recvInto buffer data).drop k).take (data.length - k) = data.drop k := by
  rw [recvInto_eq_append _ _ hlen, List.drop_append_of_le_length hk,
    List.take_left' (by rw [List.length_drop])]

/-- The `size_t` subtraction does not wrap when the offset is within the datagram. -/
theorem forwardCount_of_le (n off : Nat) (h : off ≤ n) (hn : n < 2 ^ 64) :
    Socks5.forwardCount n off = n - off := by
  unfold Socks5.forwardCount
  have ho : off % 2 ^ 64 = off := Nat.mod_eq_of_lt (by omega)
  rw [ho]
  omega

/-- A client datagram of at least 10 bytes with a literal IPv4 destination: exactly the
bytes `[10, n)` are sent to the destination read from bytes 4..9. -/
theorem DoTunnelingUdpTraffic__from_client_ipv4 (s : Socks5.UdpState) (sender : Endpoint)
    (data : List Nat) (resolved : Option Endpoint) (sendOk : Bool)
    (hfrom : s.udp_endpoint_client_ = sender ∨
      s.udp_endpoint_client_ = Socks5.unsetEndpointOf s.udp_endpoint_client_)
    (hlen : data.length ≤ s.buffer.length) (hn : data.length < 2 ^ 64)
    (h3 : byteAt data 3 = 1) (h10 : 10 ≤ data.length) :
    (Socks5.DoTunnelingUdpTraffic_ s .success sender data resolved sendOk).2 =
      [.sendTo (data.drop 10) (Common.GetIPv4Endpoint data 4 8)]
        ++ (if sendOk then [.receiveFrom] else [.log .warning]) := by
  have hclient : (if s.udp_endpoint_client_ = Socks5.unsetEndpointOf s.udp_endpoint_client_
      then sender else s.udp_endpoint_client_) = sender := by
    rcases hfrom with h | h
    · by_cases hu : s.udp_endpoint_client_ = Socks5.unsetEndpointOf s.udp_endpoint_client_
      · rw [if_pos hu]
      · rw [if_neg hu]; exact h
    · rw [if_pos h]
  have hb : ∀ i, i < data.length → byteAt (recvInto s.buffer data) i = byteAt data i := by
    intro i hi
    rw [recvInto_eq_append _ _ hlen, byteAt_append_left _ _ _ hi]
  have hres : Socks5.DoResolveAddress_ (recvInto s.buffer data) =
      .literal (Common.GetIPv4Endpoint data 4 8) := by
    unfold Socks5.DoResolveAddress_ Common.GetIPv4Endpoint loadBE32 loadBE16
      Socks5.sizeofTcpMessage Socks5.kIPv4
    rw [hb 3 (by omega), hb 4 (by omega), hb 5 (by omega), hb 6 (by omega), hb 7 (by omega),
      hb 8 (by omega), hb 9 (by omega), h3]
    rfl
  have hdrop := drop_take_recvInto s.buffer data 10 hlen h10
  have hcount := forwardCount_of_le data.length 10 h10 hn
  unfold Socks5.DoTunnelingUdpTraffic_
  simp only [ErrorCode.failed, hclient, hres, if_true, Bool.false_eq_true, if_false]
  simp only [Common.GetIPv4Endpoint, Endpoint.is_v4, Socks5.sizeofUdpMessage,
    Socks5.sizeofAddressV4, if_true]
  rw [show 4 + 6 = 10 from rfl, hcount, hdrop]

/-- C11 (code defect): the 20-byte client datagram
`00 00|00|03|0b "example.com"|00 35|de ad` (fragment 0, domain name with length octet 11),
whose destination resolves to 93.184.216.34:53, has its payload `de ad` at offset
4 + (1 + 11) + 2 = 18, but the bytes forwarded are those from offset 10 on,
`6c 65 2e 63 6f 6d 00 35 de ad` (the tail of the name, the port and the payload). -/
theorem C11_domain_datagram_forwarded_from_offset_10 :
    (Socks5.DoTunnelingUdpTraffic_ udpStateWide .success udpClient datagramExampleCom
        (some ⟨.v4 0x5db8d822, 53⟩) true).2 =
      [.resolve [0x65, 0x78, 0x61, 0x6d, 0x70, 0x6c, 0x65, 0x2e, 0x63, 0x6f, 0x6d] 53,
        .sendTo [0x6c, 0x65, 0x2e, 0x63, 0x6f, 0x6d, 0, 0x35, 0xde, 0xad] ⟨.v4 0x5db8d822, 53⟩,
        .receiveFrom] ∧
      datagramExampleCom.drop (4 + (1 + byteAt datagramExampleCom 4) + 2) = [0xde, 0xad] := by
  decide

/-! ## C12: the fragment byte -/

/-- Overwriting one byte leaves the other bytes as they are. -/
theorem byteAt_set_ne (l : List Nat) (i j v : Nat) (h : j ≠ i) :
    byteAt (l.set j v) i = byteAt l i := by
  unfold byteAt
  rw [List.getD_eq_getElem?_getD, List.getD_eq_getElem?_getD, List.getElem?_set_ne h]

/-- The address parser does not look at byte 2 of the buffer. -/
theorem DoResolveAddress__set_two (b : List Nat) (v : Nat) :
    Socks5.DoResolveAddress_ (b.set 2 v) = Socks5.DoResolveAddress_ b := by
  have hb : ∀ i, 2 ≠ i → byteAt (b.set 2 v) i = byteAt b i :=
    fun i h => byteAt_set_ne b i 2 v h
  have hmap : (List.range 16).map (fun cx => byteAt (b.set 2 v) (4 + cx))
      = (List.range 16).map (fun cx => byteAt b (4 + cx)) := by
    apply List.map_congr_left
    intro cx _
    exact hb _ (by omega)
  unfold Socks5.DoResolveAddress_ Common.GetIPv4Endpoint Common.GetIPv6Endpoint loadBE32
    loadBE16 Socks5.sizeofTcpMessage Socks5.sizeofAddressDomain
  rw [hmap, hb 3 (by omega), hb 4 (by omega), hb (4 + 1) (by omega), hb (4 + 2) (by omega),
    hb (4 + 3) (by omega), hb (4 + 4) (by omega), hb (4 + 4 + 1) (by omega),
    hb (4 + 16) (by omega), hb (4 + 16 + 1) (by omega),
    hb (4 + 1 + byteAt b 4) (by omega), hb (4 + 1 + byteAt b 4 + 1) (by omega),
    List.drop_set_of_lt v b (by omega : 2 < 4 + 1)]

/-- The session buffer after receiving a datagram whose byte 2 was replaced. -/
theorem recvInto_set_two (buffer data : List Nat) (v : Nat)
    (hlen : data.length ≤ buffer.length) :
    recvInto buffer (data.set 2 v) = recvInto buffer data ∨
      recvInto buffer (data.set 2 v) = (recvInto buffer data).set 2 v := by
  by_cases h : 2 < data.length
  · right
    rw [recvInto_eq_append _ _ hlen, recvInto_eq_append _ _ (by rw [List.length_set]; exact hlen),
      List.length_set, List.set_append_left _ _ h]
  · left
    rw [List.set_eq_of_length_le (by omega)]

/-- The bytes from the payload offset on do not include byte 2. -/
theorem drop_offset_set_two (b : List Nat) (v : Nat) (endpoint : Endpoint) :
    (b.set 2 v).drop (Socks5.sizeofUdpMessage +
        (if endpoint.is_v4 then Socks5.sizeofAddressV4 else Socks5.sizeofAddressV6))
      = b.drop (Socks5.sizeofUdpMessage +
        (if endpoint.is_v4 then Socks5.sizeofAddressV4 else Socks5.sizeofAddressV6)) := by
  have h2 : 2 < Socks5.sizeofUdpMessage +
      (if endpoint.is_v4 then Socks5.sizeofAddressV4 else Socks5.sizeofAddressV6) := by
    unfold Socks5.sizeofUdpMessage; omega
  rw [List.drop_set_of_lt v b h2]

/-- C12 as stated fails: the client datagram `00 00|01|01|01020304|00 35|de ad`, whose
fragment byte is 1, is not dropped; its payload `de ad` is sent to 1.2.3.4:53. -/
theorem C12_fragment_counterexample :
    byteAt datagramFragmentOne 2 ≠ 0 ∧
      (Socks5.DoTunnelingUdpTraffic_ udpStateWide .success udpClient datagramFragmentOne
        none true).2 = [.sendTo [0xde, 0xad] ⟨.v4 0x01020304, 53⟩, .receiveFrom] := by
  decide

/-- Replacing byte 2 of a datagram from the client changes nothing the UDP pump does. -/
theorem udp_fragment_invariance (s : Socks5.UdpState) (sender : Endpoint)
    (data : List Nat) (fragment : Nat) (resolved : Option Endpoint) (sendOk : Bool)
    (hfrom : s.udp_endpoint_client_ = sender ∨
      s.udp_endpoint_client_ = Socks5.unsetEndpointOf s.udp_endpoint_client_)
    (hlen : data.length ≤ s.buffer.length) :
    (Socks5.DoTunnelingUdpTraffic_ s .success sender (data.set 2 fragment) resolved sendOk).2 =
      (Socks5.DoTunnelingUdpTraffic_ s .success sender data resolved sendOk).2 := by
  have hclient : (if s.udp_endpoint_client_ = Socks5.unsetEndpointOf s.udp_endpoint_client_
      then sender else s.udp_endpoint_client_) = sender := by
    rcases hfrom with h | h
    · by_cases hu : s.udp_endpoint_client_ = Socks5.unsetEndpointOf s.udp_endpoint_client_
      · rw [if_pos hu]
      · rw [if_neg hu]; exact h
    · rw [if_pos h]
  unfold Socks5.DoTunnelingUdpTraffic_
  simp only [ErrorCode.failed, hclient, if_true, Bool.false_eq_true, if_false, List.length_set]
  rcases recvInto_set_two s.buffer data fragment hlen with h | h
  · rw [h]
  · rw [h, DoResolveAddress__set_two]
    cases hr : Socks5.DoResolveAddress_ (recvInto s.buffer data) with
    | literal endpoint =>
      simp only []
      rw [drop_offset_set_two]
    | domain address service =>
      cases resolved with
      | none => rfl
      | some endpoint =>
        simp only []
        rw [drop_offset_set_two]
    | unhandled => rfl

/-- A client datagram of at least 22 bytes with a literal IPv6 destination: exactly the
bytes `[22, n)` are sent to the destination read from bytes 4..21. -/
theorem DoTunnelingUdpTraffic__from_client_ipv6 (s : Socks5.UdpState) (sender : Endpoint)
    (data : List Nat) (resolved : Option Endpoint) (sendOk : Bool)
    (hfrom : s.udp_endpoint_client_ = sender ∨
      s.udp_endpoint_client_ = Socks5.unsetEndpointOf s.udp_endpoint_client_)
    (hlen : data.length ≤ s.buffer.length) (hn : data.length < 2 ^ 64)
    (h3 : byteAt data 3 = 4) (h22 : 22 ≤ data.length) :
    (Socks5.DoTunnelingUdpTraffic_ s .success sender data resolved sendOk).2 =
      [.sendTo (data.drop 22) (Common.GetIPv6Endpoint data 4 20)]
        ++ (if sendOk then [.receiveFrom] else [.log .warning]) := by
  have hclient : (if s.udp_endpoint_client_ = Socks5.unsetEndpointOf s.udp_endpoint_client_
      then sender else s.udp_endpoint_client_) = sender := by
    rcases hfrom with h | h
    · by_cases hu : s.udp_endpoint_client_ = Socks5.unsetEndpointOf s.udp_endpoint_client_
      · rw [if_pos hu]
      · rw [if_neg hu]; exact h
    · rw [if_pos h]
  have hb : ∀ i, i < data.length → byteAt (recvInto s.buffer data) i = byteAt data i := by
    intro i hi
    rw [recvInto_eq_append _ _ hlen, byteAt_append_left _ _ _ hi]
  have hmap : (List.range 16).map (fun cx => byteAt (recvInto s.buffer data) (4 + cx))
      = (List.range 16).map (fun cx => byteAt data (4 + cx)) := by
    apply List.map_congr_left
    intro cx hcx
    have : cx < 16 := List.mem_range.mp hcx
    exact hb _ (by omega)
  have hres : Socks5.DoResolveAddress_ (recvInto s.buffer data) =
      .literal (Common.GetIPv6Endpoint data 4 20) := by
    unfold Socks5.DoResolveAddress_ Common.GetIPv6Endpoint loadBE16
      Socks5.sizeofTcpMessage Socks5.kIPv4 Socks5.kIPv6
    rw [hb 3 (by omega), h3, hmap, hb (4 + 16) (by omega), hb (4 + 16 + 1) (by omega)]
    rfl
  have hdrop := drop_take_recvInto s.buffer data 22 hlen h22
  have hcount := forwardCount_of_le data.length 22 h22 hn
  unfold Socks5.DoTunnelingUdpTraffic_
  simp only [ErrorCode.failed, hclient, hres, if_true, Bool.false_eq_true, if_false]
  simp only [Common.GetIPv6Endpoint, Endpoint.is_v4, Socks5.sizeofUdpMessage,
    Socks5.sizeofAddressV6, Bool.false_eq_true, if_false]
  rw [show 4 + 18 = 22 from rfl, hcount, hdrop]

/-- C12 (amended): the UDP relay does not examine the fragment byte (byte 2 of the UDP
envelope). For every datagram received from client_ep and every value of its fragment byte:
the relay's actions are exactly those for the same datagram with any other fragment byte
(in particular with fragment byte 0); a datagram of at least 10 bytes with a literal IPv4
destination is not dropped, its bytes from offset 10 on are sent to that destination; and a
datagram of at least 22 bytes with a literal IPv6 destination is not dropped, its bytes from
offset 22 on are sent to that destination. -/
theorem C12_fragment_byte_ignored (s : Socks5.UdpState) (sender : Endpoint)
    (data : List Nat) (fragment : Nat) (resolved : Option Endpoint) (sendOk : Bool)
    (hfrom : s.udp_endpoint_client_ = sender ∨
      s.udp_endpoint_client_ = Socks5.unsetEndpointOf s.udp_endpoint_client_)
    (hlen : data.length ≤ s.buffer.length) (hbuf : s.buffer.length ≤ kUdpBufferSize) :
    (Socks5.DoTunnelingUdpTraffic_ s .success sender (data.set 2 fragment) resolved sendOk).2 =
        (Socks5.DoTunnelingUdpTraffic_ s .success sender data resolved sendOk).2 ∧
      (byteAt data 3 = 1 → 10 ≤ data.length →
        (Socks5.DoTunnelingUdpTraffic_ s .success sender (data.set 2 fragment) resolved
            sendOk).2 =
          [.sendTo (data.drop 10) (Common.GetIPv4Endpoint data 4 8)]
            ++ (if sendOk then [.receiveFrom] else [.log .warning])) ∧
      (byteAt data 3 = 4 → 22 ≤ data.length →
        (Socks5.DoTunnelingUdpTraffic_ s .success sender (data.set 2 fragment) resolved
            sendOk).2 =
          [.sendTo (data.drop 22) (Common.GetIPv6Endpoint data 4 20)]
            ++ (if sendOk then [.receiveFrom] else [.log .warning])) := by
  have hinv := udp_fragment_invariance s sender data fragment resolved sendOk hfrom hlen
  have hn : data.length < 2 ^ 64 := by
    unfold kUdpBufferSize at hbuf
    omega
  refine ⟨hinv, ?_, ?_⟩
  · intro h3 h10
    rw [hinv]
    exact DoTunnelingUdpTraffic__from_client_ipv4 s sender data resolved sendOk hfrom hlen hn
      h3 h10
  · intro h3 h22
    rw [hinv]
    exact DoTunnelingUdpTraffic__from_client_ipv6 s sender data resolved sendOk hfrom hlen hn
      h3 h22

/-- C12 (amended) at a concrete datagram: with fragment byte 7 the datagram
`00 00|07|01|01020304|00 35|de ad` has its payload `de ad` sent to 1.2.3.4:53. -/
theorem C12_fragment_byte_ignored_witness :
    (Socks5.DoTunnelingUdpTraffic_ udpStateWide .success udpClient
        ([0, 0, 0, 1, 1, 2, 3, 4, 0, 0x35, 0xde, 0xad].set 2 7) none true).2 =
      [.sendTo [0xde, 0xad] ⟨.v4 0x01020304, 53⟩, .receiveFrom] :=
  ((C12_fragment_byte_ignored udpStateWide udpClient
    [0, 0, 0, 1, 1, 2, 3, 4, 0, 0x35, 0xde, 0xad] 7 none true (Or.inl (by decide))
    (by decide) (by decide)).2.1 (by decide) (by decide)).trans (by decide)

/-! ## C13, C14, C15, C20: reply and envelope encoding -/

/-- The address part of an encoded IPv4 endpoint is 4 bytes long, that of an IPv6 endpoint
16 bytes. -/
theorem length_addressBytes (e : Endpoint) (hwf : e.wellFormed = true) :
    (Socks5.addressBytes e.address).length = if e.is_v4 then 4 else 16 := by
  unfold Endpoint.wellFormed at hwf
  unfold Socks5.addressBytes Endpoint.is_v4
  cases h : e.address with
  | v4 a => simp [be32]
  | v6 bytes =>
    rw [h] at hwf
    simp only [Bool.and_eq_true, decide_eq_true_eq] at hwf
    simpa using hwf.1

/-- C13: for every reply status `s` and endpoint `e`, the SOCKS5 reply written by
`DoSendReply_` is `05 s 00 atyp`, the address and the port in network byte order: for an
IPv4 endpoint atyp is 1 and the address its 4 big-endian bytes (10 bytes in all), for an IPv6
endpoint atyp is 4 and the address its 16 bytes (22 bytes in all); ATYP is 1 exactly when the
carried address is 4 bytes long, and the reply built from the empty endpoint is
`05 s 00 01 00000000 0000`. -/
theorem C13_socks5_reply_layout (s : Nat) (e : Endpoint) (writeOk : Bool)
    (callback : List Event) (hwf : e.wellFormed = true) :
    (∃ rest,
        Socks5.DoSendReply_ s e writeOk callback = .write (Socks5.replyBytes s e) :: rest) ∧
      (∀ a, e.address = .v4 a →
        Socks5.replyBytes s e =
          [5, s, 0, 1, a / 16777216 % 256, a / 65536 % 256, a / 256 % 256, a % 256,
            e.port / 256 % 256, e.port % 256]) ∧
      (∀ bytes, e.address = .v6 bytes →
        Socks5.replyBytes s e = [5, s, 0, 4] ++ bytes ++ [e.port / 256 % 256, e.port % 256] ∧
          (Socks5.replyBytes s e).length = 22) ∧
      ((Socks5.replyBytes s e).length = 10 ∨ (Socks5.replyBytes s e).length = 22) ∧
      (byteAt (Socks5.replyBytes s e) 3 = 1 ↔ (Socks5.addressBytes e.address).length = 4) ∧
      Socks5.replyBytes s kEmptyEndpoint = [5, s, 0, 1, 0, 0, 0, 0, 0, 0] := by
  have hl := length_addressBytes e hwf
  refine ⟨⟨_, rfl⟩, ?_, ?_, ?_, ?_, ?_⟩
  · intro a ha
    simp [Socks5.replyBytes, Socks5.addressTypeOf, Endpoint.is_v4, Socks5.addressBytes, ha,
      be32, be16, Socks5.kIPv4]
  · intro bytes hb
    have h16 : bytes.length = 16 := by
      simpa [Socks5.addressBytes, Endpoint.is_v4, hb] using hl
    simp [Socks5.replyBytes, Socks5.addressTypeOf, Endpoint.is_v4, Socks5.addressBytes, hb,
      be16, Socks5.kIPv6, h16]
  · cases h : e.address with
    | v4 a =>
      left
      simp [Socks5.replyBytes, Socks5.addressBytes, h, be32, be16]
    | v6 bytes =>
      right
      have h16 : bytes.length = 16 := by
        simpa [Socks5.addressBytes, Endpoint.is_v4, h] using hl
      simp [Socks5.replyBytes, Socks5.addressBytes, h, be16, h16]
  · cases h : e.address with
    | v4 a =>
      simp [Socks5.replyBytes, Socks5.addressTypeOf, Endpoint.is_v4, Socks5.addressBytes, h,
        be32, byteAt, Socks5.kIPv4]
    | v6 bytes =>
      have h16 : bytes.length = 16 := by
        simpa [Socks5.addressBytes, Endpoint.is_v4, h] using hl
      simp [Socks5.replyBytes, Socks5.addressTypeOf, Endpoint.is_v4, Socks5.addressBytes, h,
        byteAt, Socks5.kIPv6, h16]
  · simp [Socks5.replyBytes, Socks5.addressTypeOf, Endpoint.is_v4, Socks5.addressBytes,
      kEmptyEndpoint, be32, be16, Socks5.kIPv4]

/-- C13 at the endpoint 127.0.0.1:4000 with status 0: the reply is
`05 00 00 01 7f000001 0fa0`. -/
theorem C13_socks5_reply_layout_witness :
    Socks5.replyBytes 0 ⟨.v4 0x7f000001, 4000⟩ = [5, 0, 0, 1, 127, 0, 0, 1, 0x0f, 0xa0] :=
  ((C13_socks5_reply_layout 0 ⟨.v4 0x7f000001, 4000⟩ true [] (by decide)).2.1
    0x7f000001 rfl).trans (by decide)

/-- C14: for every reply status `s` and IPv4 endpoint `(a, p)`, the SOCKS4 reply written by
`DoSendReply` is exactly the 8 bytes `00`, `s`, the port as 2 big-endian bytes, the address
as 4 big-endian bytes; the connect-failure reply built from the empty endpoint is
`00 5c 00 00 00 00 00 00`. -/
theorem C14_socks4_reply_layout (s a p : Nat) (writeOk : Bool) (callback : List Event) :
    Socks4.DoSendReply s ⟨.v4 a, p⟩ writeOk callback =
        .write [0, s, p / 256 % 256, p % 256, a / 16777216 % 256, a / 65536 % 256,
            a / 256 % 256, a % 256] ::
          (if writeOk then callback else [.log .error, .deleteSession]) ∧
      (Socks4.replyBytes s a p).length = 8 ∧
      writesOf (Socks4.DoSendReplyAndDeleteSession Socks4.kConnectionFailed kEmptyEndpoint
        .error writeOk) = [[0, 0x5c, 0, 0, 0, 0, 0, 0]] := by
  refine ⟨?_, ?_, ?_⟩
  · simp [Socks4.DoSendReply, Socks4.replyBytes, be16, be32, DeleteSession]
  · simp [Socks4.replyBytes, be16, be32]
  · cases writeOk <;>
      simp [Socks4.DoSendReplyAndDeleteSession, Socks4.DoSendReply, Socks4.replyBytes,
        kEmptyEndpoint, Socks4.kConnectionFailed, be16, be32, DeleteSession, writesOf]

/-- Reading a 16-bit port back from its two network-order bytes. -/
theorem loadBE16_be16 (l r : List Nat) (p : Nat) (hp : p < 65536) :
    loadBE16 (l ++ be16 p ++ r) l.length = p := by
  unfold loadBE16
  have e0 := byteAt_append_right l (be16 p ++ r) 0
  have e1 := byteAt_append_right l (be16 p ++ r) 1
  rw [Nat.add_zero] at e0
  rw [List.append_assoc, e0, e1]
  simp only [be16, byteAt, List.cons_append, List.getD_cons_zero, List.getD_cons_succ]
  omega

/-- Decoding an encoded IPv4 reply or envelope gives the endpoint back. -/
theorem DoResolveAddress__v4 (h0 h1 h2 a p : Nat) (ha : a < 4294967296) (hp : p < 65536) :
    Socks5.DoResolveAddress_ ([h0, h1, h2, 1] ++ be32 a ++ be16 p)
      = .literal ⟨.v4 a, p⟩ := by
  have hA : a / 16777216 % 256 * 16777216 + a / 65536 % 256 * 65536 + a / 256 % 256 * 256
      + a % 256 = a := by omega
  have hP : p / 256 % 256 * 256 + p % 256 = p := by omega
  simp only [Socks5.DoResolveAddress_, Common.GetIPv4Endpoint, loadBE32, loadBE16, byteAt,
    Socks5.kIPv4, Socks5.sizeofTcpMessage, be32, be16, List.cons_append, List.nil_append,
    List.getD_cons_zero, List.getD_cons_succ, if_true]
  rw [hA, hP]

/-- Decoding an encoded IPv6 reply or envelope gives the endpoint back. -/
theorem DoResolveAddress__v6 (h0 h1 h2 p : Nat) (bytes : List Nat) (hb : bytes.length = 16)
    (hp : p < 65536) :
    Socks5.DoResolveAddress_ ([h0, h1, h2, 4] ++ bytes ++ be16 p)
      = .literal ⟨.v6 bytes, p⟩ := by
  have h3 : byteAt ([h0, h1, h2, 4] ++ bytes ++ be16 p) 3 = 4 := by
    simp [byteAt]
  have hlen : ([h0, h1, h2, 4] ++ bytes).length = 4 + 16 := by
    simp [hb]
  have hport : loadBE16 ([h0, h1, h2, 4] ++ bytes ++ be16 p) (4 + 16) = p := by
    have := loadBE16_be16 ([h0, h1, h2, 4] ++ bytes) [] p hp
    rw [List.append_nil, hlen] at this
    exact this
  have haddr : (List.range 16).map
      (fun cx => byteAt ([h0, h1, h2, 4] ++ bytes ++ be16 p) (4 + cx)) = bytes := by
    rw [← slice_eq_map_range _ 4 16 (by simp [hb, be16])]
    have hd : List.drop 4 ([h0, h1, h2, 4] ++ bytes ++ be16 p) = bytes ++ be16 p := by
      simp
    rw [hd, List.take_left' hb]
  unfold Socks5.DoResolveAddress_ Common.GetIPv6Endpoint
  rw [h3]
  simp only [Socks5.kIPv4, Socks5.kIPv6, Socks5.sizeofTcpMessage]
  rw [haddr, hport]
  rfl

/-- C15: for every status `s` and every IPv4 or IPv6 endpoint `e`, the bytes written by the
reply encoder `DoSendReply_` read back as version 5 and status `s` through the header
fields, and as an endpoint with the address and port of `e` through the address parser
`DoResolveAddress_`. -/
theorem C15_socks5_reply_roundtrip (s : Nat) (e : Endpoint) (writeOk : Bool)
    (hwf : e.wellFormed = true) :
    writesOf (Socks5.DoSendReply_ s e writeOk []) = [Socks5.replyBytes s e] ∧
      byteAt (Socks5.replyBytes s e) 0 = 5 ∧
      byteAt (Socks5.replyBytes s e) 1 = s ∧
      Socks5.DoResolveAddress_ (Socks5.replyBytes s e) = .literal e := by
  refine ⟨?_, ?_, ?_, ?_⟩
  · cases writeOk <;> simp [Socks5.DoSendReply_, writesOf, DeleteSession]
  · simp [Socks5.replyBytes, byteAt]
  · simp [Socks5.replyBytes, byteAt]
  · obtain ⟨address, port⟩ := e
    unfold Endpoint.wellFormed at hwf
    cases address with
    | v4 a =>
      simp only [Bool.and_eq_true, decide_eq_true_eq] at hwf
      simpa [Socks5.replyBytes, Socks5.addressTypeOf, Endpoint.is_v4, Socks5.addressBytes,
        Socks5.kIPv4] using DoResolveAddress__v4 5 s 0 a port hwf.1 hwf.2
    | v6 bytes =>
      simp only [Bool.and_eq_true, decide_eq_true_eq] at hwf
      simpa [Socks5.replyBytes, Socks5.addressTypeOf, Endpoint.is_v4, Socks5.addressBytes,
        Socks5.kIPv6] using DoResolveAddress__v6 5 s 0 port bytes hwf.1 hwf.2

/-- C15 at status 0 and the endpoint 93.184.216.34:80. -/
theorem C15_socks5_reply_roundtrip_witness :
    Socks5.DoResolveAddress_ (Socks5.replyBytes 0 ⟨.v4 0x5db8d822, 80⟩)
      = .literal ⟨.v4 0x5db8d822, 80⟩ :=
  (C15_socks5_reply_roundtrip 0 ⟨.v4 0x5db8d822, 80⟩ true (by decide)).2.2.2

/-- C20: for every UDP endpoint `e`, `CreateUdpMessage(e)` is reserved `00 00`, fragment
`00`, the address type, the address and the port, in that order: atyp 1 and the 4
big-endian address bytes for IPv4 (10 bytes in all), atyp 4 and the 16 address bytes for
IPv6 (22 bytes in all), the port as 2 big-endian bytes; and in the datagram sent to the
client the received payload follows the port directly. -/
theorem C20_udp_envelope_layout (e : Endpoint) (hwf : e.wellFormed = true) :
    (∀ a, e.address = .v4 a →
        Socks5.CreateUdpMessage e =
          [0, 0, 0, 1, a / 16777216 % 256, a / 65536 % 256, a / 256 % 256, a % 256,
            e.port / 256 % 256, e.port % 256]) ∧
      (∀ bytes, e.address = .v6 bytes →
        Socks5.CreateUdpMessage e = [0, 0, 0, 4] ++ bytes ++ [e.port / 256 % 256, e.port % 256] ∧
          (Socks5.CreateUdpMessage e).length = 22) ∧
      (∀ (s : Socks5.UdpState) (sender : Endpoint) (payload : List Nat) (sendOk : Bool),
        s.udp_endpoint_client_ = e → e ≠ Socks5.unsetEndpointOf e → e ≠ sender →
        payload.length ≤ s.buffer.length →
          (Socks5.DoTunnelingUdpTraffic_ s .success sender payload none sendOk).2 =
            [.sendTo (Socks5.CreateUdpMessage e ++ payload) e]
              ++ (if sendOk then [.receiveFrom] else [.log .warning])) := by
  have hl := length_addressBytes e hwf
  refine ⟨?_, ?_, ?_⟩
  · intro a ha
    simp [Socks5.CreateUdpMessage, Socks5.addressTypeOf, Endpoint.is_v4, Socks5.addressBytes,
      ha, be32, be16, Socks5.kIPv4]
  · intro bytes hb
    have h16 : bytes.length = 16 := by
      simpa [Socks5.addressBytes, Endpoint.is_v4, hb] using hl
    simp [Socks5.CreateUdpMessage, Socks5.addressTypeOf, Endpoint.is_v4, Socks5.addressBytes,
      hb, be16, Socks5.kIPv6, h16]
  · intro s sender payload sendOk hs hset hne hlen
    subst hs
    exact DoTunnelingUdpTraffic__from_application s sender payload none sendOk hset hne hlen

/-- C20 at the endpoint 1.2.3.4:53: the envelope header is `00 00 00 01 01020304 0035`. -/
theorem C20_udp_envelope_layout_witness :
    Socks5.CreateUdpMessage ⟨.v4 0x01020304, 53⟩ = [0, 0, 0, 1, 1, 2, 3, 4, 0, 0x35] :=
  ((C20_udp_envelope_layout ⟨.v4 0x01020304, 53⟩ (by decide)).1 0x01020304 rfl).trans
    (by decide)

/-! ## C17: the SOCKS4A test -/

set_option maxRecDepth 20000 in
/-- Below 256 the SOCKS4A test and the mask formulation agree (checked value by value). -/
theorem isSocks4a_low :
    ∀ a, a < 256 →
      (Socks4.isSocks4a a = true ↔ (a &&& 0xFFFFFF00 = 0 ∧ a &&& 0xFF ≠ 0)) := by
  unfold Socks4.isSocks4a
  decide

/-- A 32-bit value of at least 256 has a bit set at a position from 8 to 31. -/
theorem exists_high_bit (a : Nat) (h32 : a < 4294967296) (h : 256 ≤ a) :
    ∃ i, 8 ≤ i ∧ i < 32 ∧ a.testBit i = true := by
  by_contra hno
  have hall : ∀ i, i ≥ 8 → a.testBit i = false := by
    intro i hi
    by_cases h31 : i < 32
    · by_contra hb
      exact hno ⟨i, hi, h31, by simpa using hb⟩
    · apply Nat.testBit_lt_two_pow
      calc a < 2 ^ 32 := h32
        _ ≤ 2 ^ i := Nat.pow_le_pow_right (by decide) (by omega)
  have := Nat.lt_pow_two_of_testBit a hall
  omega

/-- C17: for every 32-bit destination address `a`, the SOCKS4A test used by the code,
`(a XOR 0x000000FF) < 0xFF`, holds if and only if `(a AND 0xFFFFFF00) = 0` and
`(a AND 0xFF) ≠ 0`. -/
theorem C17_socks4a_test (a : Nat) (h32 : a < 4294967296) :
    Socks4.isSocks4a a = true ↔ (a &&& 0xFFFFFF00 = 0 ∧ a &&& 0xFF ≠ 0) := by
  by_cases hlow : a < 256
  · exact isSocks4a_low a hlow
  · obtain ⟨i, h8, h31, hbit⟩ := exists_high_bit a h32 (by omega)
    have hmask : Nat.testBit 0xFFFFFF00 i = true := by
      interval_cases i <;> decide
    have hff : Nat.testBit 0xFF i = false :=
      Nat.testBit_lt_two_pow (calc 0xFF < 2 ^ 8 := by decide
        _ ≤ 2 ^ i := Nat.pow_le_pow_right (by decide) h8)
    have hpow : 2 ^ 8 ≤ 2 ^ i := Nat.pow_le_pow_right (by decide) h8
    constructor
    · intro ht
      exfalso
      unfold Socks4.isSocks4a at ht
      have hx : (a ^^^ 0xff).testBit i = true := by
        rw [Nat.testBit_xor, hbit, hff]; rfl
      have hge := Nat.testBit_implies_ge hx
      have hlt : a ^^^ 0xff < 0xff := by simpa using ht
      omega
    · intro hand
      exfalso
      have hx : (a &&& 0xFFFFFF00).testBit i = true := by
        rw [Nat.testBit_and, hbit, hmask]; rfl
      rw [hand.1] at hx
      simp at hx

/-- C17 at the address 0.0.0.1: the SOCKS4A test holds. -/
theorem C17_socks4a_test_witness : Socks4.isSocks4a 1 = true :=
  (C17_socks4a_test 1 (by decide)).mpr (by decide)

/-! ## C18: SOCKS4A requests -/

/-- A scan for the first NUL over bytes without NUL followed by a NUL returns those bytes. -/
theorem takeWhile_until_nul (u t : List Nat) (hu : ∀ c ∈ u, c ≠ 0) :
    (u ++ 0 :: t).takeWhile (fun c => c != 0) = u := by
  rw [List.takeWhile_append_of_pos (by
    intro c hc
    simpa using hu c hc)]
  simp

/-- C18: for every SOCKS4A request of at most 4096 bytes made of the 8-byte header
(address 0.0.0.x, x ≠ 0), a USER-ID `u` without NUL, a NUL, a host name `h` without NUL
and a NUL: the extracted USER-ID is `u`, and the address resolution hands the host name
`h` and the big-endian value of header bytes 2..3 as port to the resolver. -/
theorem C18_socks4a_fields (header u h buffer : List Nat) (w : World)
    (hheader : header.length = 8)
    (h4a : Socks4.isSocks4a (loadBE32 header 4) = true)
    (hu : ∀ c ∈ u, c ≠ 0) (hh : ∀ c ∈ h, c ≠ 0)
    (hlen : (header ++ u ++ [0] ++ h ++ [0]).length ≤ kTcpBufferSize)
    (hbuffer : buffer = recvInto (List.replicate kTcpBufferSize 0)
      (header ++ u ++ [0] ++ h ++ [0])) :
    Common.GetStringFromArray buffer Socks4.sizeofMessage = u ∧
      Socks4.DoResolveAddress buffer (Common.GetStringFromArray buffer Socks4.sizeofMessage) w
        = ([.resolve h (loadBE16 header 2)], w.resolved) := by
  have hbl : (header ++ u ++ [0] ++ h ++ [0]).length
      ≤ (List.replicate kTcpBufferSize 0).length := by
    rw [List.length_replicate]; exact hlen
  have hrl : (header ++ u ++ [0] ++ h ++ [0]).length = 8 + u.length + 1 + h.length + 1 := by
    simp [hheader]; omega
  have hd1 : (header ++ u ++ [0] ++ h ++ [0]).drop 8 = u ++ 0 :: (h ++ [0]) := by
    have : header ++ u ++ [0] ++ h ++ [0] = header ++ (u ++ 0 :: (h ++ [0])) := by simp
    rw [this, List.drop_left' hheader]
  have hd2 : (header ++ u ++ [0] ++ h ++ [0]).drop (8 + u.length + 1) = h ++ 0 :: [] := by
    have : header ++ u ++ [0] ++ h ++ [0] = (header ++ u ++ [0]) ++ (h ++ 0 :: []) := by simp
    rw [this, List.drop_left' (by simp [hheader]; omega)]
  have huid : Common.GetStringFromArray buffer Socks4.sizeofMessage = u := by
    rw [hbuffer]
    unfold Socks4.sizeofMessage
    rw [GetStringFromArray_recvInto _ _ _ hbl (by
      rw [hd1, takeWhile_until_nul u _ hu, hrl]; omega), hd1, takeWhile_until_nul u _ hu]
  have hhost : Common.GetStringFromArray buffer (Socks4.sizeofMessage + u.length + 1) = h := by
    rw [hbuffer]
    unfold Socks4.sizeofMessage
    rw [GetStringFromArray_recvInto _ _ _ hbl (by
      rw [hd2, takeWhile_until_nul h _ hh, hrl]; omega), hd2, takeWhile_until_nul h _ hh]
  have hb : ∀ i, i < 8 → byteAt buffer i = byteAt header i := by
    intro i hi
    rw [hbuffer, recvInto_eq_append _ _ hbl, byteAt_append_left _ _ _ (by rw [hrl]; omega)]
    have : header ++ u ++ [0] ++ h ++ [0] = header ++ (u ++ 0 :: (h ++ [0])) := by simp
    rw [this, byteAt_append_left _ _ _ (by omega)]
  have h32 : loadBE32 buffer 4 = loadBE32 header 4 := by
    unfold loadBE32
    rw [hb 4 (by omega), hb (4 + 1) (by omega), hb (4 + 2) (by omega), hb (4 + 3) (by omega)]
  have h16 : loadBE16 buffer 2 = loadBE16 header 2 := by
    unfold loadBE16
    rw [hb 2 (by omega), hb (2 + 1) (by omega)]
  refine ⟨huid, ?_⟩
  unfold Socks4.DoResolveAddress
  rw [h32, h4a, huid, hhost, h16]
  rfl

/-- C18 at the request `04|01|0050|00000001|7531|00|6578616d706c652e636f6d|00`: the USER-ID
is "u1", and "example.com" with port 80 goes to the resolver. -/
theorem C18_socks4a_fields_witness :
    Common.GetStringFromArray (recvInto (List.replicate kTcpBufferSize 0)
        (socks4aHeader ++ userU1 ++ [0] ++ hostExampleCom ++ [0])) Socks4.sizeofMessage = userU1 ∧
      Socks4.DoResolveAddress (recvInto (List.replicate kTcpBufferSize 0)
          (socks4aHeader ++ userU1 ++ [0] ++ hostExampleCom ++ [0]))
        (Common.GetStringFromArray (recvInto (List.replicate kTcpBufferSize 0)
          (socks4aHeader ++ userU1 ++ [0] ++ hostExampleCom ++ [0])) Socks4.sizeofMessage)
        worldOk = ([.resolve hostExampleCom 80], worldOk.resolved) :=
  C18_socks4a_fields socks4aHeader userU1 hostExampleCom _ worldOk (by decide) (by decide)
    (by decide) (by decide) (by decide) rfl

/-! ## C16: SOCKS4 CONNECT to a literal address -/

/-- An address value of 256 or more fails the SOCKS4A test. -/
theorem isSocks4a_of_ge (a : Nat) (h : 256 ≤ a) : Socks4.isSocks4a a = false := by
  have hex : ∃ i, 8 ≤ i ∧ a.testBit i = true := by
    by_contra hno
    have hall : ∀ i, i ≥ 8 → a.testBit i = false := by
      intro i hi
      by_contra hb
      exact hno ⟨i, hi, by simpa using hb⟩
    have := Nat.lt_pow_two_of_testBit a hall
    omega
  obtain ⟨i, h8, hbit⟩ := hex
  have hff : Nat.testBit 0xFF i = false :=
    Nat.testBit_lt_two_pow (calc 0xFF < 2 ^ 8 := by decide
      _ ≤ 2 ^ i := Nat.pow_le_pow_right (by decide) h8)
  have hpow : 2 ^ 8 ≤ 2 ^ i := Nat.pow_le_pow_right (by decide) h8
  have hx : (a ^^^ 0xff).testBit i = true := by
    rw [Nat.testBit_xor, hbit, hff]; rfl
  have hge := Nat.testBit_implies_ge hx
  unfold Socks4.isSocks4a
  simp only [decide_eq_false_iff_not, Nat.not_lt]
  omega

/-- The four network-order bytes of a value assembled from four bytes. -/
theorem be32_of_bytes (b0 b1 b2 b3 : Nat) (h0 : b0 < 256) (h1 : b1 < 256) (h2 : b2 < 256)
    (h3 : b3 < 256) :
    be32 (b0 * 16777216 + b1 * 65536 + b2 * 256 + b3) = [b0, b1, b2, b3] := by
  have e0 : (b0 * 16777216 + b1 * 65536 + b2 * 256 + b3) / 16777216 % 256 = b0 := by omega
  have e1 : (b0 * 16777216 + b1 * 65536 + b2 * 256 + b3) / 65536 % 256 = b1 := by omega
  have e2 : (b0 * 16777216 + b1 * 65536 + b2 * 256 + b3) / 256 % 256 = b2 := by omega
  have e3 : (b0 * 16777216 + b1 * 65536 + b2 * 256 + b3) % 256 = b3 := by omega
  simp only [be32, e0, e1, e2, e3]

/-- The two network-order bytes of a value assembled from two bytes. -/
theorem be16_of_bytes (b0 b1 : Nat) (h0 : b0 < 256) (h1 : b1 < 256) :
    be16 (b0 * 256 + b1) = [b0, b1] := by
  have e0 : (b0 * 256 + b1) / 256 % 256 = b0 := by omega
  have e1 : (b0 * 256 + b1) % 256 = b1 := by omega
  simp only [be16, e0, e1]

/-- A SOCKS4 reply built from the port and address fields of a request repeats the request
bytes 2..7. -/
theorem replyBytes_of_request (r : List Nat) (code : Nat) (hl : 8 ≤ r.length)
    (hbytes : ∀ x ∈ r, x < 256) :
    Socks4.replyBytes code (loadBE32 r 4) (loadBE16 r 2) = [0, code] ++ (r.drop 2).take 6 := by
  match r, hl, hbytes with
  | r0 :: r1 :: r2 :: r3 :: r4 :: r5 :: r6 :: r7 :: tl, _, hb =>
    have h2 : r2 < 256 := hb r2 (by simp)
    have h3 : r3 < 256 := hb r3 (by simp)
    have h4 : r4 < 256 := hb r4 (by simp)
    have h5 : r5 < 256 := hb r5 (by simp)
    have h6 : r6 < 256 := hb r6 (by simp)
    have h7 : r7 < 256 := hb r7 (by simp)
    simp only [Socks4.replyBytes, loadBE32, loadBE16, byteAt, List.getD_cons_zero,
      List.getD_cons_succ, be32_of_bytes r4 r5 r6 r7 h4 h5 h6 h7, be16_of_bytes r2 r3 h2 h3]
    simp

/-- The header fields read from the session buffer are those of the received request. -/
theorem header_of_recvInto (buffer r : List Nat) (hlen : r.length ≤ buffer.length)
    (hl : 8 ≤ r.length) :
    byteAt (recvInto buffer r) 1 = byteAt r 1 ∧
      loadBE16 (recvInto buffer r) 2 = loadBE16 r 2 ∧
      loadBE32 (recvInto buffer r) 4 = loadBE32 r 4 := by
  have hb : ∀ i, i < 8 → byteAt (recvInto buffer r) i = byteAt r i := by
    intro i hi
    rw [recvInto_eq_append _ _ hlen, byteAt_append_left _ _ _ (by omega)]
  unfold loadBE16 loadBE32
  rw [hb 1 (by omega), hb 2 (by omega), hb (2 + 1) (by omega), hb 4 (by omega),
    hb (4 + 1) (by omega), hb (4 + 2) (by omega), hb (4 + 3) (by omega)]
  exact ⟨rfl, rfl, rfl⟩

/-- C16: for every SOCKS4 CONNECT request `r` with a literal destination (address not of the
form 0.0.0.x with x ≠ 0) that passes the USER-ID check while CONNECT is enabled, the session
connects to the address `r[4].r[5].r[6].r[7]` and the port `256*r[2] + r[3]`, and when the
connect succeeds, the socket's remote endpoint being that destination, the reply written is
`00 5a` followed by `r[2..8)` unchanged; the relay is started once the reply is written. -/
theorem C16_socks4_connect_literal (cfg : ConfigSocks4) (r : List Nat) (w : World)
    (hlen : r.length ≤ kTcpBufferSize) (hbytes : ∀ x ∈ r, x < 256)
    (hvalid : Socks4.IsValidMessage r = true) (hcmd : byteAt r 1 = 1)
    (hlit : ¬ (byteAt r 4 = 0 ∧ byteAt r 5 = 0 ∧ byteAt r 6 = 0 ∧ byteAt r 7 ≠ 0))
    (huid : cfg.user_id = [] ∨
      Common.GetStringFromArray (recvInto (List.replicate kTcpBufferSize 0) r)
        Socks4.sizeofMessage = cfg.user_id)
    (henable : cfg.enable_connect = true) (hconn : w.connectOk = true)
    (hremote : w.remote =
      ⟨.v4 (byteAt r 4 * 16777216 + byteAt r 5 * 65536 + byteAt r 6 * 256 + byteAt r 7),
        byteAt r 2 * 256 + byteAt r 3⟩) :
    Socks4.Start cfg .success r w =
      .executeCommand :: .connectCommand ::
        .connect
          ⟨.v4 (byteAt r 4 * 16777216 + byteAt r 5 * 65536 + byteAt r 6 * 256 + byteAt r 7),
            byteAt r 2 * 256 + byteAt r 3⟩ ::
        .write ([0, 0x5a] ++ (r.drop 2).take 6) ::
        (if w.firstWriteOk then
          [.log .info, .readSome .client .application, .readSome .application .client,
            .readSome .application .client, .readSome .client .application]
        else [.log .error, .deleteSession]) := by
  have hbuf : r.length ≤ (List.replicate kTcpBufferSize 0).length := by
    rw [List.length_replicate]; exact hlen
  have hl8 : 8 ≤ r.length := ((Socks4.IsValidMessage_iff r).mp hvalid).1
  have htake := take_recvInto _ r hbuf
  have hstart : Socks4.Start cfg .success r w =
      Socks4.DoProcessAuthentication cfg (recvInto (List.replicate kTcpBufferSize 0) r) w := by
    simp [Socks4.Start, ErrorCode.failed, htake, hvalid]
  obtain ⟨hb1, hb16, hb32⟩ := header_of_recvInto _ r hbuf hl8
  have hreply := replyBytes_of_request r 90 hl8 hbytes
  have hno4a : Socks4.isSocks4a (loadBE32 r 4) = false := by
    have h4 := byteAt_lt r hbytes 4
    have h5 := byteAt_lt r hbytes 5
    have h6 := byteAt_lt r hbytes 6
    have h7 := byteAt_lt r hbytes 7
    by_cases hz : loadBE32 r 4 = 0
    · rw [hz]; decide
    · apply isSocks4a_of_ge
      unfold loadBE32 at hz ⊢
      simp only [Nat.reduceAdd] at hz ⊢
      by_contra hlt
      apply hlit
      refine ⟨by omega, by omega, by omega, by omega⟩
  have hpass : (!cfg.user_id.isEmpty &&
      Common.GetStringFromArray (recvInto (List.replicate kTcpBufferSize 0) r)
        Socks4.sizeofMessage != cfg.user_id) = false := by
    rcases huid with h | h
    · simp [h]
    · simp [h]
  rw [hstart]
  unfold Socks4.DoProcessAuthentication
  simp only [hpass, Bool.false_eq_true, if_false]
  unfold Socks4.DoExecuteCommand Socks4.DoConnectCommand Socks4.DoResolveAddress
  simp only [hb1, hcmd, Socks4.kConnect, if_true, henable, Bool.not_true, Bool.false_eq_true,
    if_false, hb32, hno4a, hconn, Common.GetIPv4Endpoint, hb16]
  have haddr : loadBE32 r 4
      = byteAt r 4 * 16777216 + byteAt r 5 * 65536 + byteAt r 6 * 256 + byteAt r 7 := rfl
  have hport : loadBE16 r 2 = byteAt r 2 * 256 + byteAt r 3 := rfl
  rw [← haddr, ← hport] at hremote ⊢
  simp only [Socks4.DoSendReply, hremote, DoTunnelingTraffic, DoTunnelingReceive,
    DeleteSession, Socks4.kGranted, hreply]
  simp

/-- C16 at the request `04 01 00 50 5d b8 d8 22 00`: the session connects to
93.184.216.34:80 and answers `00 5a 00 50 5d b8 d8 22` before it starts the relay. -/
theorem C16_socks4_connect_literal_witness :
    Socks4.Start cfgSocks4Open .success requestScenario1 worldOk =
      [.executeCommand, .connectCommand, .connect ⟨.v4 0x5db8d822, 80⟩,
        .write [0, 0x5a, 0, 0x50, 0x5d, 0xb8, 0xd8, 0x22], .log .info,
        .readSome .client .application, .readSome .application .client,
        .readSome .application .client, .readSome .client .application] :=
  (C16_socks4_connect_literal cfgSocks4Open requestScenario1 worldOk (by decide) (by decide)
    (by decide) (by decide) (by decide) (Or.inl rfl) rfl rfl (by decide)).trans (by decide)

/-! ## C19: a USER-ID without terminating NUL -/

/-- When no NUL occurs from `offset` to the end of the array, the extracted string is
empty. -/
theorem GetStringFromArray_unterminated (b : List Nat) (offset : Nat)
    (h : ∀ c ∈ b.drop offset, c ≠ 0) : Common.GetStringFromArray b offset = [] := by
  unfold Common.GetStringFromArray
  by_cases hl : b.length > offset
  · have hall : (b.drop offset).takeWhile (fun c => c != 0) = b.drop offset := by
      rw [List.takeWhile_eq_self_iff]
      intro c hc
      simpa using h c hc
    simp only [hl, if_true, hall, List.length_drop]
    rw [if_neg (by omega)]
  · rw [if_neg hl]

/-- The session's reaction to an accepted request whose USER-ID is not NUL-terminated inside
the buffer: the USER-ID counts as empty, so the request is dispatched when no USER-ID is
configured and answered with status 93 otherwise. -/
theorem Start_unterminated (cfg : ConfigSocks4) (data : List Nat) (w : World)
    (hlen : data.length ≤ kTcpBufferSize) (hvalid : Socks4.IsValidMessage data = true)
    (hnonul : ∀ c ∈ (recvInto (List.replicate kTcpBufferSize 0) data).drop
      Socks4.sizeofMessage, c ≠ 0) :
    Socks4.Start cfg .success data w =
      if cfg.user_id = [] then
        Socks4.DoExecuteCommand cfg (recvInto (List.replicate kTcpBufferSize 0) data) [] w
      else
        [.write [0, 0x5d, 0, 0, 0, 0, 0, 0], .log .error, .deleteSession] := by
  have hbuf : data.length ≤ (List.replicate kTcpBufferSize 0).length := by
    rw [List.length_replicate]; exact hlen
  have htake := take_recvInto _ data hbuf
  have huid := GetStringFromArray_unterminated _ _ hnonul
  have hstart : Socks4.Start cfg .success data w =
      Socks4.DoProcessAuthentication cfg (recvInto (List.replicate kTcpBufferSize 0) data) w := by
    simp [Socks4.Start, ErrorCode.failed, htake, hvalid]
  rw [hstart]
  unfold Socks4.DoProcessAuthentication
  rw [huid]
  by_cases hc : cfg.user_id = []
  · simp [hc]
  · have hne : ([] : List Nat) ≠ cfg.user_id := fun h => hc h.symm
    simp [hc, hne, Socks4.DoSendReplyAndDeleteSession, Socks4.DoSendReply, kEmptyEndpoint,
      Socks4.replyBytes, Socks4.kClientConflict, be16, be32, DeleteSession]

/-- The 4096-byte example request is accepted by the validator, fills the session buffer
and has no NUL from offset 8 to the end of the buffer. -/
theorem requestUnterminated_facts :
    requestUnterminated.length ≤ kTcpBufferSize ∧
      Socks4.IsValidMessage requestUnterminated = true ∧
      recvInto (List.replicate kTcpBufferSize 0) requestUnterminated = requestUnterminated ∧
      (∀ c ∈ (recvInto (List.replicate kTcpBufferSize 0) requestUnterminated).drop
        Socks4.sizeofMessage, c ≠ 0) := by
  have hl : requestUnterminated.length = 4096 := by
    unfold requestUnterminated
    rw [List.length_append, List.length_replicate]
    rfl
  have h0 : byteAt requestUnterminated 0 = 4 := by
    unfold requestUnterminated
    rw [byteAt_append_left _ _ _ (by decide)]; decide
  have h1 : byteAt requestUnterminated 1 = 1 := by
    unfold requestUnterminated
    rw [byteAt_append_left _ _ _ (by decide)]; decide
  have hrecv : recvInto (List.replicate kTcpBufferSize 0) requestUnterminated
      = requestUnterminated := by
    rw [recvInto_eq_append _ _ (by rw [List.length_replicate, hl]; decide),
      List.drop_eq_nil_of_le (by rw [List.length_replicate, hl]; decide), List.append_nil]
  refine ⟨by rw [hl]; decide, ?_, hrecv, ?_⟩
  · rw [Socks4.IsValidMessage_iff]
    exact ⟨by rw [hl]; decide, Or.inl ⟨h0, by rw [h1], by rw [h1]; decide⟩⟩
  · intro c hc
    rw [hrecv] at hc
    unfold requestUnterminated Socks4.sizeofMessage at hc
    rw [List.drop_left' (by decide)] at hc
    rw [List.mem_replicate] at hc
    omega

/-- C19 as stated fails: the 4096-byte request `04 01 00 50 5d b8 d8 22` followed by 4088
bytes `01` has version 4, command 1 and no NUL from offset 8 to the end of the buffer, yet
with no USER-ID configured the session dispatches it and enters the CONNECT handler. -/
theorem C19_unterminated_counterexample :
    (∀ c ∈ (recvInto (List.replicate kTcpBufferSize 0) requestUnterminated).drop
        Socks4.sizeofMessage, c ≠ 0) ∧
      Event.connectCommand ∈ Socks4.Start cfgSocks4Open .success requestUnterminated worldOk := by
  obtain ⟨hlen, hvalid, hrecv, hnonul⟩ := requestUnterminated_facts
  refine ⟨hnonul, ?_⟩
  rw [Start_unterminated cfgSocks4Open requestUnterminated worldOk hlen hvalid hnonul, hrecv]
  have h1 : byteAt requestUnterminated 1 = 1 := by
    unfold requestUnterminated
    rw [byteAt_append_left _ _ _ (by decide)]; decide
  simp [cfgSocks4Open, Socks4.DoExecuteCommand, Socks4.DoConnectCommand, h1, Socks4.kConnect]

/-- The USER-ID gate of `DoProcessAuthentication` over any session buffer: dispatch is
entered exactly when the configured USER-ID is empty or equals the extracted one, and
otherwise the session answers status 93 and is deleted. -/
theorem DoProcessAuthentication_gate (cfg : ConfigSocks4) (buffer : List Nat) (w : World) :
    (Event.executeCommand ∈ Socks4.DoProcessAuthentication cfg buffer w ↔
        (cfg.user_id = [] ∨
          Common.GetStringFromArray buffer Socks4.sizeofMessage = cfg.user_id)) ∧
      (¬ (cfg.user_id = [] ∨
          Common.GetStringFromArray buffer Socks4.sizeofMessage = cfg.user_id) →
        Socks4.DoProcessAuthentication cfg buffer w =
          [.write [0, 0x5d, 0, 0, 0, 0, 0, 0], .log .error, .deleteSession]) := by
  unfold Socks4.DoProcessAuthentication
  by_cases hc : cfg.user_id = []
  · simp [hc, Socks4.DoExecuteCommand]
  · by_cases hu : Common.GetStringFromArray buffer Socks4.sizeofMessage = cfg.user_id
    · simp [hu, Socks4.DoExecuteCommand]
    · simp [hc, hu, Socks4.DoSendReplyAndDeleteSession, Socks4.DoSendReply, kEmptyEndpoint,
        Socks4.replyBytes, Socks4.kClientConflict, be16, be32, DeleteSession]

/-- When the received request is shorter than the zero-filled session buffer and holds no
NUL from offset 8 on, the zero padding ends the string: the USER-ID extracted is the whole
rest of the request. -/
theorem GetStringFromArray_padded (data : List Nat) (size : Nat)
    (h8 : 8 ≤ data.length) (hlt : data.length < size)
    (hnonul : ∀ c ∈ data.drop 8, c ≠ 0) :
    Common.GetStringFromArray (recvInto (List.replicate size 0) data) 8 = data.drop 8 := by
  have hle : data.length ≤ (List.replicate size 0).length := by
    rw [List.length_replicate]; omega
  obtain ⟨k, hk⟩ : ∃ k, size - data.length = k + 1 := ⟨size - data.length - 1, by omega⟩
  have hpad : List.drop data.length (List.replicate size 0) = 0 :: List.replicate k 0 := by
    rw [List.drop_replicate, hk, List.replicate_succ]
  have hdrop : (data ++ 0 :: List.replicate k 0).drop 8
      = data.drop 8 ++ 0 :: List.replicate k 0 := List.drop_append_of_le_length h8
  have hlen : (data ++ 0 :: List.replicate k 0).length = data.length + (k + 1) := by
    rw [List.length_append, List.length_cons, List.length_replicate]
  rw [recvInto_eq_append _ _ hle, hpad]
  unfold Common.GetStringFromArray
  rw [hdrop, takeWhile_until_nul _ _ hnonul, hlen]
  have hfound : 8 + (data.drop 8).length < data.length + (k + 1) := by
    rw [List.length_drop]; omega
  rw [if_pos (by omega)]
  simp only [hfound, if_true]

/-- A request that fills the session buffer is the session buffer. -/
theorem recvInto_full (data : List Nat) (size : Nat) (h : data.length = size) :
    recvInto (List.replicate size 0) data = data := by
  rw [recvInto_eq_append _ _ (by rw [List.length_replicate, h]),
    List.drop_eq_nil_of_le (by rw [List.length_replicate, h]), List.append_nil]

/-- C19 (amended): a SOCKS4 request accepted by the validator (length n ≥ 8, version 4 and
command 1 or 2 included) in which no NUL byte occurs among the received bytes from offset 8
on is not treated as invalid. When n < 4096 the zero padding of the session buffer ends the
USER-ID, which is extracted as the bytes at offsets `8 .. n`; when n = 4096, the request
filling the buffer, the extracted USER-ID is the empty string. In both cases the session
enters command dispatch if and only if the configured USER-ID is empty or equals the
extracted one, and otherwise it answers `00 5d 00 00 00 00 00 00` and is deleted without
entering the CONNECT or BIND handler. -/
theorem C19_unterminated_user_id (cfg : ConfigSocks4) (data : List Nat) (w : World)
    (hlen : data.length ≤ kTcpBufferSize) (hvalid : Socks4.IsValidMessage data = true)
    (hnonul : ∀ c ∈ data.drop Socks4.sizeofMessage, c ≠ 0) :
    (data.length < kTcpBufferSize →
        Common.GetStringFromArray (recvInto (List.replicate kTcpBufferSize 0) data)
          Socks4.sizeofMessage = data.drop Socks4.sizeofMessage) ∧
      (data.length = kTcpBufferSize →
        Common.GetStringFromArray (recvInto (List.replicate kTcpBufferSize 0) data)
          Socks4.sizeofMessage = []) ∧
      (Event.executeCommand ∈ Socks4.Start cfg .success data w ↔
        (cfg.user_id = [] ∨
          Common.GetStringFromArray (recvInto (List.replicate kTcpBufferSize 0) data)
            Socks4.sizeofMessage = cfg.user_id)) ∧
      (¬ (cfg.user_id = [] ∨
          Common.GetStringFromArray (recvInto (List.replicate kTcpBufferSize 0) data)
            Socks4.sizeofMessage = cfg.user_id) →
        Socks4.Start cfg .success data w =
            [.write [0, 0x5d, 0, 0, 0, 0, 0, 0], .log .error, .deleteSession] ∧
          Event.connectCommand ∉ Socks4.Start cfg .success data w ∧
          Event.bindCommand ∉ Socks4.Start cfg .success data w) := by
  have hbuf : data.length ≤ (List.replicate kTcpBufferSize 0).length := by
    rw [List.length_replicate]; exact hlen
  have h8 : 8 ≤ data.length := ((Socks4.IsValidMessage_iff data).mp hvalid).1
  have hstart : Socks4.Start cfg .success data w =
      Socks4.DoProcessAuthentication cfg (recvInto (List.replicate kTcpBufferSize 0) data) w := by
    simp [Socks4.Start, ErrorCode.failed, take_recvInto _ data hbuf, hvalid]
  have hgate := DoProcessAuthentication_gate cfg
    (recvInto (List.replicate kTcpBufferSize 0) data) w
  refine ⟨?_, ?_, ?_, ?_⟩
  · intro hlt
    exact GetStringFromArray_padded data kTcpBufferSize h8 hlt hnonul
  · intro hfull
    apply GetStringFromArray_unterminated
    rw [recvInto_full data kTcpBufferSize hfull]
    exact hnonul
  · rw [hstart]
    exact hgate.1
  · intro hno
    rw [hstart, hgate.2 hno]
    simp

/-- The 4096-byte example request has no NUL from offset 8 on. -/
theorem requestUnterminated_nonul :
    ∀ c ∈ requestUnterminated.drop Socks4.sizeofMessage, c ≠ 0 := by
  intro c hc
  unfold requestUnterminated Socks4.sizeofMessage at hc
  rw [List.drop_left' (by decide), List.mem_replicate] at hc
  omega

/-- C19 (amended) at two requests with the configured USER-ID "bob": the 11-byte request
`04 01 00 50 5d b8 d8 22 62 6f 62` (no NUL after "bob") is dispatched, and the 4096-byte
request without NUL is answered `00 5d 00 00 00 00 00 00` and deleted. -/
theorem C19_unterminated_user_id_witness :
    Event.executeCommand ∈ Socks4.Start cfgBob .success requestBobNoNul worldOk ∧
      Socks4.Start cfgBob .success requestUnterminated worldOk =
        [.write [0, 0x5d, 0, 0, 0, 0, 0, 0], .log .error, .deleteSession] :=
  ⟨(C19_unterminated_user_id cfgBob requestBobNoNul worldOk (by decide) (by decide)
      (by decide)).2.2.1.mpr
      (Or.inr (((C19_unterminated_user_id cfgBob requestBobNoNul worldOk (by decide)
        (by decide) (by decide)).1 (by decide)).trans (by decide))),
    ((C19_unterminated_user_id cfgBob requestUnterminated worldOk requestUnterminated_facts.1
      requestUnterminated_facts.2.1 requestUnterminated_nonul).2.2.2
      (by
        rw [(C19_unterminated_user_id cfgBob requestUnterminated worldOk
          requestUnterminated_facts.1 requestUnterminated_facts.2.1
          requestUnterminated_nonul).2.1
          (by unfold requestUnterminated
              rw [List.length_append, List.length_replicate]
              rfl)]
        decide)).1⟩

/-! ## C21, C22: SOCKS5 command dispatch -/

/-- The reply `05 02 00 01 00000000 0000` followed by the deletion of the session: what
`DoSendReplyAndDeleteSession_(kNotAllowed, kEmptyTcpEndpoint, error, ...)` does, whether or
not the write succeeds. -/
theorem notAllowed_trace (writeOk : Bool) :
    Socks5.DoSendReplyAndDeleteSession_ Socks5.kNotAllowed kEmptyEndpoint .error writeOk =
      [.write [5, 2, 0, 1, 0, 0, 0, 0, 0, 0], .log .error, .deleteSession] := by
  cases writeOk <;> decide

/-- The dispatch of an accepted SOCKS5 request, command by command. -/
theorem DoExecuteCommand__dispatch (cfg : ConfigSocks5) (buffer : List Nat) (w : World)
    (hcode : w.commandReadCode = .success)
    (hlen : w.commandReadData.length ≤ buffer.length)
    (hvalid : Socks5.IsValidTcpMessage w.commandReadData = true) :
    Socks5.DoExecuteCommand_ cfg buffer w =
      .executeCommand ::
        (if byteAt w.commandReadData 1 = 1 then
          (if cfg.enable_connect then Socks5.DoConnectCommand (recvInto buffer w.commandReadData) w
          else [.write [5, 2, 0, 1, 0, 0, 0, 0, 0, 0], .log .error, .deleteSession])
        else if byteAt w.commandReadData 1 = 2 then
          (if cfg.enable_bind then Socks5.DoBindCommand_ (recvInto buffer w.commandReadData) w
          else [.write [5, 2, 0, 1, 0, 0, 0, 0, 0, 0], .log .error, .deleteSession])
        else
          (if cfg.enable_udp then Socks5.DoUdpAssociateCommand_ w
          else [.write [5, 2, 0, 1, 0, 0, 0, 0, 0, 0], .log .error, .deleteSession])) := by
  have hs := IsValidTcpMessage_sound _ hvalid
  have hl5 : 1 < w.commandReadData.length := by
    rcases hs.2.2 with h | h | h <;> omega
  have hb1 : byteAt (recvInto buffer w.commandReadData) 1 = byteAt w.commandReadData 1 := by
    rw [recvInto_eq_append _ _ hlen, byteAt_append_left _ _ _ hl5]
  have htake := take_recvInto buffer w.commandReadData hlen
  unfold Socks5.DoExecuteCommand_
  simp only [hcode, ErrorCode.failed, Bool.false_eq_true, if_false, htake, hvalid, Bool.not_true,
    hb1, notAllowed_trace, Socks5.kConnect, Socks5.kBind, Socks5.kUdpAssociate]
  by_cases h1 : byteAt w.commandReadData 1 = 1
  · cases hc : cfg.enable_connect <;> simp [h1, hc]
  · by_cases h2 : byteAt w.commandReadData 1 = 2
    · cases hc : cfg.enable_bind <;> simp [h2, hc]
    · have h3 : byteAt w.commandReadData 1 = 3 := by omega
      cases hc : cfg.enable_udp <;> simp [h3, hc]

/-- C21: for every SOCKS5 request accepted by the validator the command byte is 1, 2 or 3
and dispatch depends on the per-command flag only: command 1, 2 or 3 enters the CONNECT,
BIND or UDP ASSOCIATE handler respectively if and only if `enable_connect`, `enable_bind`
or `enable_udp` is set, and otherwise the session writes exactly
`05 02 00 01 00000000 0000` and is deleted, no handler being entered. -/
theorem C21_socks5_dispatch (cfg : ConfigSocks5) (buffer : List Nat) (w : World)
    (hcode : w.commandReadCode = .success)
    (hlen : w.commandReadData.length ≤ buffer.length)
    (hvalid : Socks5.IsValidTcpMessage w.commandReadData = true) :
    (byteAt w.commandReadData 1 = 1 ∨ byteAt w.commandReadData 1 = 2 ∨
        byteAt w.commandReadData 1 = 3) ∧
      (byteAt w.commandReadData 1 = 1 →
        (cfg.enable_connect = true →
          Socks5.DoExecuteCommand_ cfg buffer w =
            .executeCommand :: Socks5.DoConnectCommand (recvInto buffer w.commandReadData) w) ∧
        (cfg.enable_connect = false →
          Socks5.DoExecuteCommand_ cfg buffer w =
            [.executeCommand, .write [5, 2, 0, 1, 0, 0, 0, 0, 0, 0], .log .error,
              .deleteSession]) ∧
        (Event.connectCommand ∈ Socks5.DoExecuteCommand_ cfg buffer w ↔
          cfg.enable_connect = true)) ∧
      (byteAt w.commandReadData 1 = 2 →
        (cfg.enable_bind = true →
          Socks5.DoExecuteCommand_ cfg buffer w =
            .executeCommand :: Socks5.DoBindCommand_ (recvInto buffer w.commandReadData) w) ∧
        (cfg.enable_bind = false →
          Socks5.DoExecuteCommand_ cfg buffer w =
            [.executeCommand, .write [5, 2, 0, 1, 0, 0, 0, 0, 0, 0], .log .error,
              .deleteSession]) ∧
        (Event.bindCommand ∈ Socks5.DoExecuteCommand_ cfg buffer w ↔
          cfg.enable_bind = true)) ∧
      (byteAt w.commandReadData 1 = 3 →
        (cfg.enable_udp = true →
          Socks5.DoExecuteCommand_ cfg buffer w =
            .executeCommand :: Socks5.DoUdpAssociateCommand_ w) ∧
        (cfg.enable_udp = false →
          Socks5.DoExecuteCommand_ cfg buffer w =
            [.executeCommand, .write [5, 2, 0, 1, 0, 0, 0, 0, 0, 0], .log .error,
              .deleteSession]) ∧
        (Event.udpAssociateCommand ∈ Socks5.DoExecuteCommand_ cfg buffer w ↔
          cfg.enable_udp = true)) := by
  have hs := IsValidTcpMessage_sound _ hvalid
  have hd := DoExecuteCommand__dispatch cfg buffer w hcode hlen hvalid
  refine ⟨by omega, ?_, ?_, ?_⟩
  · intro h1
    rw [hd]
    cases hc : cfg.enable_connect <;> simp [h1, Socks5.DoConnectCommand]
  · intro h2
    rw [hd]
    cases hc : cfg.enable_bind <;> simp [h2, Socks5.DoBindCommand_]
  · intro h3
    rw [hd]
    cases hc : cfg.enable_udp <;> simp [h3, Socks5.DoUdpAssociateCommand_]

/-- C21 at the CONNECT request `05 01 00 01 0a000001 0016` with CONNECT disabled: the
session answers `05 02 00 01 00000000 0000` and is deleted. -/
theorem C21_socks5_dispatch_witness :
    Socks5.DoExecuteCommand_ cfgNoConnect (List.replicate 16 0) worldConnectRequest =
      [.executeCommand, .write [5, 2, 0, 1, 0, 0, 0, 0, 0, 0], .log .error, .deleteSession] :=
  ((C21_socks5_dispatch cfgNoConnect (List.replicate 16 0) worldConnectRequest rfl
    (by decide) (by decide)).2.1 (by decide)).2.1 rfl

/-- C22 (code defect): the request `05 04 00 01 00000000 0000` (version 5, address type
IPv4, 10 bytes, command byte 4) is rejected by the validator, so the session is deleted
without any reply; the `default` case of the dispatch switch, which would answer status
0x07, is never reached. -/
theorem C22_unknown_command_gets_no_reply :
    Socks5.IsValidTcpMessage worldUnknownCommand.commandReadData = false ∧
      Socks5.DoExecuteCommand_ cfgOpen (List.replicate 16 0) worldUnknownCommand =
        [.log .error, .deleteSession] ∧
      writesOf (Socks5.DoExecuteCommand_ cfgOpen (List.replicate 16 0) worldUnknownCommand)
        = [] := by
  decide

/-! ## C23, C24: session identifiers -/

/-- The loop returns the cursor itself when it is below the limit and not in use. -/
theorem GenerateSessionId_of_free {σ : Type} (sessions_ : List (Nat × σ)) (id : Nat)
    (hlt : id < Server.limit) (hfree : Server.contains sessions_ id = false) :
    Server.GenerateSessionId sessions_ id = (id, id) := by
  rw [Server.GenerateSessionId, if_pos hlt, hfree]
  rfl

/-- The loop moves on to the next identifier when the cursor is in use. -/
theorem GenerateSessionId_of_used {σ : Type} (sessions_ : List (Nat × σ)) (id : Nat)
    (hlt : id < Server.limit) (hused : Server.contains sessions_ id = true) :
    Server.GenerateSessionId sessions_ id = Server.GenerateSessionId sessions_ (id + 1) := by
  rw [Server.GenerateSessionId, if_pos hlt, hused]
  rfl

/-- The loop returns the sentinel when the cursor has reached the limit. -/
theorem GenerateSessionId_of_limit {σ : Type} (sessions_ : List (Nat × σ)) (id : Nat)
    (hge : ¬ id < Server.limit) :
    Server.GenerateSessionId sessions_ id = (Server.kInvalidId, id) := by
  rw [Server.GenerateSessionId, if_neg hge]

/-- What the loop of `GenerateSessionId` computes: either the sentinel, every identifier
from the cursor up to the limit being in use, or the smallest identifier from the cursor on
that is not in use, the cursor being left at it. -/
theorem GenerateSessionId_spec {σ : Type} (sessions_ : List (Nat × σ)) (id : Nat) :
    ((Server.GenerateSessionId sessions_ id).1 = Server.kInvalidId ∧
        ∀ i, id ≤ i → i < Server.limit → Server.contains sessions_ i = true) ∨
      (id ≤ (Server.GenerateSessionId sessions_ id).1 ∧
        (Server.GenerateSessionId sessions_ id).1 < Server.limit ∧
        Server.contains sessions_ (Server.GenerateSessionId sessions_ id).1 = false ∧
        (∀ i, id ≤ i → i < (Server.GenerateSessionId sessions_ id).1 →
          Server.contains sessions_ i = true) ∧
        (Server.GenerateSessionId sessions_ id).2 = (Server.GenerateSessionId sessions_ id).1) := by
  obtain ⟨n, hn⟩ : ∃ n, n = Server.limit - id := ⟨_, rfl⟩
  induction n generalizing id with
  | zero =>
    left
    rw [GenerateSessionId_of_limit sessions_ id (by omega)]
    exact ⟨rfl, fun i h1 h2 => by omega⟩
  | succ n ih =>
    have hlt : id < Server.limit := by omega
    cases hc : Server.contains sessions_ id with
    | false =>
      right
      rw [GenerateSessionId_of_free sessions_ id hlt hc]
      exact ⟨Nat.le_refl _, hlt, hc, fun i h1 h2 => by omega, rfl⟩
    | true =>
      rw [GenerateSessionId_of_used sessions_ id hlt hc]
      rcases ih (id + 1) (by omega) with h | h
      · left
        refine ⟨h.1, ?_⟩
        intro i h1 h2
        by_cases hi : i = id
        · rw [hi]; exact hc
        · exact h.2 i (by omega) h2
      · right
        refine ⟨by omega, h.2.1, h.2.2.1, ?_, h.2.2.2.2⟩
        intro i h1 h2
        by_cases hi : i = id
        · rw [hi]; exact hc
        · exact h.2.2.2.1 i (by omega) h2

/-- Erasing or overwriting one key does not change what is stored under another key. -/
theorem lookup_filter_ne {σ : Type} (sessions_ : List (Nat × σ)) (k index : Nat)
    (h : k ≠ index) :
    (sessions_.filter (fun entry => entry.1 != index)).lookup k = sessions_.lookup k := by
  induction sessions_ with
  | nil => rfl
  | cons entry rest ih =>
    obtain ⟨key, value⟩ := entry
    by_cases hk : key = index
    · subst hk
      have hne : (k == key) = false := by
        simp only [beq_eq_false_iff_ne, ne_eq]
        exact h
      have hdrop : (key != key) = false := by simp
      simp only [List.filter_cons, hdrop, Bool.false_eq_true, if_false, List.lookup_cons, hne]
      exact ih
    · have hkeep : (key != index) = true := by simp [hk]
      simp only [List.filter_cons, hkeep, if_true, List.lookup_cons]
      cases hkk : (k == key) with
      | true => rfl
      | false => exact ih

/-- C23: for every registry content and every value of the allocation cursor,
`GenerateSessionId` returns either the sentinel `kInvalidId` (the maximum `size_t` value) or
an identifier different from the sentinel that is not a key of the registry; it returns the
sentinel only when every identifier from the cursor up to maximum - 1 is in use; and storing
a session under a returned identifier leaves every session of the registry in place. -/
theorem C23_generated_id_is_fresh {σ : Type} (sessions_ : List (Nat × σ)) (cursor : Nat) :
    ((Server.GenerateSessionId sessions_ cursor).1 = Server.kInvalidId ∨
        ((Server.GenerateSessionId sessions_ cursor).1 ≠ Server.kInvalidId ∧
          Server.contains sessions_ (Server.GenerateSessionId sessions_ cursor).1 = false)) ∧
      ((Server.GenerateSessionId sessions_ cursor).1 = Server.kInvalidId →
        ∀ i, cursor ≤ i → i < Server.kInvalidId → Server.contains sessions_ i = true) ∧
      ((Server.GenerateSessionId sessions_ cursor).1 ≠ Server.kInvalidId →
        ∀ (session : σ) (k : Nat), Server.contains sessions_ k = true →
          (Server.insert sessions_ (Server.GenerateSessionId sessions_ cursor).1 session).lookup k
            = sessions_.lookup k) := by
  have hlim : Server.limit = Server.kInvalidId := rfl
  rcases GenerateSessionId_spec sessions_ cursor with h | h
  · refine ⟨Or.inl h.1, ?_, ?_⟩
    · intro _ i h1 h2
      exact h.2 i h1 (by rw [hlim]; exact h2)
    · intro hne
      exact absurd h.1 hne
  · have hne : (Server.GenerateSessionId sessions_ cursor).1 ≠ Server.kInvalidId := by
      rw [← hlim]; omega
    refine ⟨Or.inr ⟨hne, h.2.2.1⟩, ?_, ?_⟩
    · intro he
      exact absurd he hne
    · intro _ session k hk
      have hkne : k ≠ (Server.GenerateSessionId sessions_ cursor).1 := by
        intro he
        rw [he, h.2.2.1] at hk
        exact Bool.noConfusion hk
      unfold Server.insert
      have hb : (k == (Server.GenerateSessionId sessions_ cursor).1) = false := by
        simp only [beq_eq_false_iff_ne, ne_eq]
        exact hkne
      rw [List.lookup_cons, hb]
      exact lookup_filter_ne sessions_ k _ hkne

/-- The loop on the registry with the single key 1 and the cursor at 1 returns 2. -/
theorem GenerateSessionId_example :
    Server.GenerateSessionId [(1, ())] 1 = (2, 2) := by
  rw [GenerateSessionId_of_used _ _ (by decide) (by decide),
    GenerateSessionId_of_free _ _ (by decide) (by decide)]

/-- C23 at the registry with the single key 1 and the cursor at 1: the identifier returned
is not the sentinel and not a key of the registry. -/
theorem C23_generated_id_is_fresh_witness :
    (Server.GenerateSessionId [(1, ())] 1).1 = Server.kInvalidId ∨
      ((Server.GenerateSessionId [(1, ())] 1).1 ≠ Server.kInvalidId ∧
        Server.contains [(1, ())] (Server.GenerateSessionId [(1, ())] 1).1 = false) :=
  (C23_generated_id_is_fresh [(1, ())] 1).1

/-- C24 as stated fails: after two accepted connections (identifiers 0 and 1) and the
removal of session 0, the registry holds the key 1 only and the cursor stands at 1; the
smallest identifier not in use is 0, but `GenerateSessionId` returns 2. -/
theorem C24_smallest_id_counterexample :
    (Server.run (Server.initial Unit) [.accept (), .accept (), .delete 0]).sessions_
        = [(1, ())] ∧
      (Server.run (Server.initial Unit) [.accept (), .accept (), .delete 0]).id = 1 ∧
      Server.contains [(1, ())] 0 = false ∧
      (Server.GenerateSessionId [(1, ())] 1).1 = 2 := by
  have g0 : Server.GenerateSessionId ([] : List (Nat × Unit)) 0 = (0, 0) :=
    GenerateSessionId_of_free _ _ (by decide) (by decide)
  have g1 : Server.GenerateSessionId [(0, ())] 0 = (1, 1) := by
    rw [GenerateSessionId_of_used _ _ (by decide) (by decide),
      GenerateSessionId_of_free _ _ (by decide) (by decide)]
  have s1 : Server.step (Server.initial Unit) (.accept ()) = ⟨[(0, ())], 0⟩ := by
    simp [Server.step, Server.initial, g0, Server.insert, Server.kInvalidId]
  have s2 : Server.step (⟨[(0, ())], 0⟩ : Server.State Unit) (.accept ())
      = ⟨[(1, ()), (0, ())], 1⟩ := by
    simp [Server.step, g1, Server.insert, Server.kInvalidId]
  have s3 : Server.step (⟨[(1, ()), (0, ())], 1⟩ : Server.State Unit) (.delete 0)
      = ⟨[(1, ())], 1⟩ := by
    simp [Server.step, Server.DeleteSession]
  have hrun : Server.run (Server.initial Unit) [.accept (), .accept (), .delete 0]
      = ⟨[(1, ())], 1⟩ := by
    simp only [Server.run, List.foldl, s1, s2, s3]
  rw [hrun, GenerateSessionId_example]
  exact ⟨rfl, rfl, by decide, rfl⟩

/-- The loop never leaves the cursor below where it started. -/
theorem GenerateSessionId_cursor_le {σ : Type} (sessions_ : List (Nat × σ)) (id : Nat) :
    id ≤ (Server.GenerateSessionId sessions_ id).2 := by
  obtain ⟨n, hn⟩ : ∃ n, n = Server.limit - id := ⟨_, rfl⟩
  induction n generalizing id with
  | zero =>
    rw [GenerateSessionId_of_limit sessions_ id (by omega)]
  | succ n ih =>
    have hlt : id < Server.limit := by omega
    cases hc : Server.contains sessions_ id with
    | false =>
      rw [GenerateSessionId_of_free sessions_ id hlt hc]
    | true =>
      rw [GenerateSessionId_of_used sessions_ id hlt hc]
      exact Nat.le_trans (Nat.le_succ id) (ih (id + 1) (by omega))

/-- No registry operation moves the cursor back. -/
theorem step_cursor_le {σ : Type} (s : Server.State σ) (op : Server.Op σ) :
    s.id ≤ (Server.step s op).id := by
  cases op with
  | accept session =>
    have h := GenerateSessionId_cursor_le s.sessions_ s.id
    unfold Server.step
    dsimp only
    split <;> exact h
  | delete id => exact Nat.le_refl _

/-- No sequence of registry operations moves the cursor back. -/
theorem run_cursor_le {σ : Type} (s : Server.State σ) (ops : List (Server.Op σ)) :
    s.id ≤ (Server.run s ops).id := by
  induction ops generalizing s with
  | nil => exact Nat.le_refl _
  | cons op rest ih =>
    exact Nat.le_trans (step_cursor_le s op) (ih (Server.step s op))

/-- C24 (amended): in every registry state `GenerateSessionId` returns the smallest
identifier not below the allocation cursor that is not currently in use, leaving the cursor
at it, and it returns the sentinel when no identifier from the cursor up to maximum - 1 is
free; the cursor starts at 0 and no sequence of accept and remove operations moves it back,
so a free identifier below the cursor is not returned. -/
theorem C24_smallest_id_from_cursor {σ : Type} (sessions_ : List (Nat × σ)) (cursor : Nat) :
    ((∃ i, cursor ≤ i ∧ i < Server.limit ∧ Server.contains sessions_ i = false) →
        (Server.GenerateSessionId sessions_ cursor).1 ≠ Server.kInvalidId ∧
        cursor ≤ (Server.GenerateSessionId sessions_ cursor).1 ∧
        (Server.GenerateSessionId sessions_ cursor).1 < Server.limit ∧
        Server.contains sessions_ (Server.GenerateSessionId sessions_ cursor).1 = false ∧
        (∀ i, cursor ≤ i → i < (Server.GenerateSessionId sessions_ cursor).1 →
          Server.contains sessions_ i = true) ∧
        (Server.GenerateSessionId sessions_ cursor).2
          = (Server.GenerateSessionId sessions_ cursor).1) ∧
      ((∀ i, cursor ≤ i → i < Server.limit → Server.contains sessions_ i = true) →
        (Server.GenerateSessionId sessions_ cursor).1 = Server.kInvalidId) ∧
      cursor ≤ (Server.GenerateSessionId sessions_ cursor).2 ∧
      (Server.initial σ).id = 0 ∧
      (∀ (s : Server.State σ) (ops : List (Server.Op σ)), s.id ≤ (Server.run s ops).id) := by
  have hlim : Server.limit = Server.kInvalidId := rfl
  refine ⟨?_, ?_, GenerateSessionId_cursor_le sessions_ cursor, rfl, run_cursor_le⟩
  · rintro ⟨i, hi1, hi2, hi3⟩
    rcases GenerateSessionId_spec sessions_ cursor with h | h
    · have := h.2 i hi1 hi2
      rw [hi3] at this
      exact Bool.noConfusion this
    · exact ⟨by rw [← hlim]; omega, h.1, h.2.1, h.2.2.1, h.2.2.2.1, h.2.2.2.2⟩
  · intro hall
    rcases GenerateSessionId_spec sessions_ cursor with h | h
    · exact h.1
    · have := hall _ h.1 h.2.1
      rw [h.2.2.1] at this
      exact Bool.noConfusion this

/-- C24 (amended) at the registry with the single key 1 and the cursor at 1, where the
identifier 2 is free: the identifier returned is not below the cursor and not in use. -/
theorem C24_smallest_id_from_cursor_witness :
    1 ≤ (Server.GenerateSessionId [(1, ())] 1).1 ∧
      Server.contains [(1, ())] (Server.GenerateSessionId [(1, ())] 1).1 = false :=
  ⟨((C24_smallest_id_from_cursor [(1, ())] 1).1 ⟨2, by decide, by decide, by decide⟩).2.1,
    ((C24_smallest_id_from_cursor [(1, ())] 1).1
      ⟨2, by decide, by decide, by decide⟩).2.2.2.1⟩

/-! ## C25: how often a session is deleted -/

/-- C25 (code defect): in SOCKS5 UDP ASSOCIATE the TCP close watcher is armed before the
reply is written. When the reply write fails the session is deleted a first time; the
watcher's read stays outstanding (deleting the session closes no socket), and when it
completes with an error, as it does once the client closes the connection, the session is
deleted a second time: `Server::DeleteSession` is called twice for the same session. -/
theorem C25_udp_associate_deletes_twice :
    Socks5.DoUdpAssociateCommand_ worldReplyFails =
        [.udpAssociateCommand, .readSome .client .client,
          .write [5, 0, 0, 1, 127, 0, 0, 1, 0x13, 0x88], .log .error, .deleteSession] ∧
      Socks5.WaitForCloseTCPConnection .eof = [.log .info, .deleteSession] ∧
      deleteCount (Socks5.DoUdpAssociateCommand_ worldReplyFails ++
        Socks5.WaitForCloseTCPConnection .eof) = 2 := by
  decide

/-! ## C26: reads posted when the relay starts -/

/-- Starting the relay as the CONNECT and BIND handlers do, with two calls of
`DoTunnelingTraffic`, posts two reads on the client socket and two on the application
socket. -/
theorem relay_start_reads :
    readsPosted .client (DoTunnelingTraffic .client .application ++
        DoTunnelingTraffic .application .client) = 2 ∧
      readsPosted .application (DoTunnelingTraffic .client .application ++
        DoTunnelingTraffic .application .client) = 2 := by
  decide

/-- C26 (code defect): after the successful SOCKS4 CONNECT of the request
`04 01 00 50 5d b8 d8 22 00` the session posts four reads, two on the client socket and two
on the application socket, so each socket has two outstanding reads (four relay chains
instead of two). -/
theorem C26_relay_start_posts_two_reads_per_socket :
    Socks4.DoConnectCommand requestScenario1 [] worldOk =
        [.connectCommand, .connect ⟨.v4 0x5db8d822, 80⟩,
          .write [0, 0x5a, 0, 0x50, 0x5d, 0xb8, 0xd8, 0x22], .log .info,
          .readSome .client .application, .readSome .application .client,
          .readSome .application .client, .readSome .client .application] ∧
      readsPosted .client (Socks4.DoConnectCommand requestScenario1 [] worldOk) = 2 ∧
      readsPosted .application (Socks4.DoConnectCommand requestScenario1 [] worldOk) = 2 := by
  decide

/-! ## C27: UDP errors -/

/-- C27 (code defect): after a failed receive, a failed resolution of the destination and a
failed send the UDP pump only logs a warning; in none of the three cases a new receive is
posted, so no later datagram is serviced. -/
theorem C27_udp_error_stops_pump :
    (Socks5.DoTunnelingUdpTraffic_ udpStateWide (.other 104) udpClient [] none true).2
        = [.log .warning] ∧
      (Socks5.DoTunnelingUdpTraffic_ udpStateWide .success udpClient datagramExampleCom
          none true).2
        = [.resolve [0x65, 0x78, 0x61, 0x6d, 0x70, 0x6c, 0x65, 0x2e, 0x63, 0x6f, 0x6d] 53,
            .log .warning] ∧
      (Socks5.DoTunnelingUdpTraffic_ udpStateWide .success udpClient datagramLiteral
          none false).2
        = [.sendTo [0xde, 0xad] ⟨.v4 0x01020304, 53⟩, .log .warning] ∧
      Event.receiveFrom ∉
        (Socks5.DoTunnelingUdpTraffic_ udpStateWide (.other 104) udpClient [] none true).2 ∧
      Event.receiveFrom ∉
        (Socks5.DoTunnelingUdpTraffic_ udpStateWide .success udpClient datagramExampleCom
          none true).2 ∧
      Event.receiveFrom ∉
        (Socks5.DoTunnelingUdpTraffic_ udpStateWide .success udpClient datagramLiteral
          none false).2 := by
  decide

/-! ## C28: the forwarded byte count -/

/-- C28 (code defect): for the 4-byte client datagram `00 00 00 01` the destination is read
from the buffer bytes after the datagram (here 0.0.0.0:0), the offset is 10, and the byte
count `4 - 10` wraps around to 2^64 - 6, which is not at most 4; the send covers the buffer
bytes from offset 10 on, all of them outside the received datagram. -/
theorem C28_forward_count_wraps :
    Socks5.forwardCount 4 10 = 18446744073709551610 ∧
      ¬ Socks5.forwardCount 4 10 ≤ 4 ∧
      (Socks5.DoTunnelingUdpTraffic_ udpStateWide .success udpClient datagramHeaderOnly
          none true).2
        = [.sendTo (List.replicate 22 0) ⟨.v4 0, 0⟩, .receiveFrom] := by
  decide

/-! ## C29: SOCKS4 dispatch of an accepted request -/

/-- An accepted SOCKS4 request whose read succeeded is handed to the USER-ID check. -/
theorem Start_accepted (cfg : ConfigSocks4) (data : List Nat) (w : World)
    (hlen : data.length ≤ kTcpBufferSize) (hvalid : Socks4.IsValidMessage data = true) :
    Socks4.Start cfg .success data w =
      Socks4.DoProcessAuthentication cfg (recvInto (List.replicate kTcpBufferSize 0) data) w := by
  have hbuf : data.length ≤ (List.replicate kTcpBufferSize 0).length := by
    rw [List.length_replicate]; exact hlen
  simp [Socks4.Start, ErrorCode.failed, take_recvInto _ data hbuf, hvalid]

/-- The SOCKS4 dispatch switch does nothing for a command byte other than 1 and 2. -/
theorem DoExecuteCommand_no_case (cfg : ConfigSocks4) (buffer user_id : List Nat) (w : World)
    (h1 : byteAt buffer 1 ≠ 1) (h2 : byteAt buffer 1 ≠ 2) :
    Socks4.DoExecuteCommand cfg buffer user_id w = [.executeCommand] := by
  simp [Socks4.DoExecuteCommand, Socks4.kConnect, Socks4.kBind, h1, h2]

/-- C29 (code defect): the request `04 5a 00 50 5d b8 d8 22 00` is accepted by the SOCKS4
validator (its second byte lies in the status range 90..93) and passes the USER-ID check
when no USER-ID is configured, but the dispatch switch has no case for the command byte 90:
the session enters `DoExecuteCommand` and does nothing more, neither starting a handler nor
replying nor deleting itself. -/
theorem C29_accepted_request_without_action :
    Socks4.IsValidMessage requestStatusCommand = true ∧
      Socks4.Start cfgSocks4Open .success requestStatusCommand worldOk = [.executeCommand] := by
  have hvalid : Socks4.IsValidMessage requestStatusCommand = true := by decide
  have hlen : requestStatusCommand.length ≤ kTcpBufferSize := by decide
  have hbuf : requestStatusCommand.length ≤ (List.replicate kTcpBufferSize 0).length := by
    rw [List.length_replicate]; exact hlen
  obtain ⟨hb1, -, -⟩ := header_of_recvInto _ requestStatusCommand hbuf (by decide)
  have h90 : byteAt requestStatusCommand 1 = 90 := by decide
  refine ⟨hvalid, ?_⟩
  rw [Start_accepted _ _ _ hlen hvalid]
  unfold Socks4.DoProcessAuthentication
  have hcfg : cfgSocks4Open.user_id = [] := rfl
  simp only [hcfg, List.isEmpty_nil, Bool.not_true, Bool.false_and, Bool.false_eq_true, if_false]
  exact DoExecuteCommand_no_case _ _ _ _ (by rw [hb1, h90]; decide) (by rw [hb1, h90]; decide)

/-! ## C30: the reads of `GetCredentials` -/

/-- C30: for every content of the 513-byte user/password negotiation buffer (bytes 0..255),
every offset read by `GetCredentials` (the ulen octet at 1, the user name at
`2 .. 2+ulen`, the plen octet at `2+ulen`, the password at `3+ulen .. 3+ulen+plen`) is
below 513, and the credentials returned are the bytes at the offsets `2 .. 2+ulen` and
`3+ulen .. 3+ulen+plen`. -/
theorem C30_GetCredentials_in_bounds (buffer : List Nat)
    (hlen : buffer.length = Socks5.UsernamePassword.kSizeOfNegotiation)
    (hbytes : ∀ x ∈ buffer, x < 256) :
    (∀ i ∈ Socks5.UsernamePassword.GetCredentialsReads buffer,
        i < Socks5.UsernamePassword.kSizeOfNegotiation) ∧
      Socks5.UsernamePassword.GetCredentials buffer =
        ((List.range' 2 (byteAt buffer 1)).map (fun i => byteAt buffer i),
          (List.range' (3 + byteAt buffer 1) (byteAt buffer (2 + byteAt buffer 1))).map
            (fun i => byteAt buffer i)) := by
  have h1 := byteAt_lt buffer hbytes 1
  have h2 := byteAt_lt buffer hbytes (2 + byteAt buffer 1)
  unfold Socks5.UsernamePassword.kSizeOfNegotiation at *
  constructor
  · intro i hi
    unfold Socks5.UsernamePassword.GetCredentialsReads at hi
    simp only [List.mem_append, List.mem_cons, List.mem_singleton, List.not_mem_nil, or_false,
      List.mem_range'_1] at hi
    omega
  · unfold Socks5.UsernamePassword.GetCredentials
    dsimp only
    rw [slice_eq_map_range buffer 2 (byteAt buffer 1) (by omega),
      slice_eq_map_range buffer (2 + byteAt buffer 1 + 1) (byteAt buffer (2 + byteAt buffer 1))
        (by omega)]
    have e : 2 + byteAt buffer 1 + 1 = 3 + byteAt buffer 1 := by omega
    rw [e, List.range'_eq_map_range, List.range'_eq_map_range, List.map_map, List.map_map]
    rfl

/-- C30 at the zero-padded buffer holding `01 05 "alice" 06 "s3cr3t"`: the offset of the
plen octet, `2 + ulen`, is below 513. -/
theorem C30_GetCredentials_in_bounds_witness :
    2 + byteAt (recvInto (List.replicate Socks5.UsernamePassword.kSizeOfNegotiation 0)
        (rfc1929Message 1 alice s3cr3t)) 1 < Socks5.UsernamePassword.kSizeOfNegotiation :=
  (C30_GetCredentials_in_bounds
    (recvInto (List.replicate Socks5.UsernamePassword.kSizeOfNegotiation 0)
      (rfc1929Message 1 alice s3cr3t))
    (length_negotiation_buffer _ (by decide))
    (negotiation_buffer_bytes _ (by decide))).1 _
    (List.mem_append_left _ (List.mem_append_left _
      (List.mem_cons_of_mem _ (List.mem_cons_self _ _))))

end RedProxy
